import Mathlib

/-!
Verification of the Chartor-Market trading engine core against its
natural-language specification.  The Python modules under scrutiny are
shallowly embedded: floats are modelled by rationals, dictionaries by
association lists, wall-clock instants by rationals (seconds) and calendar
dates by integers.  Log-message strings that interpolate formatted numbers
are reproduced structurally; where Python would raise ZeroDivisionError the
theorems carry positivity hypotheses so the total rational division of the
model never diverges from the source semantics on the inputs considered.
-/

/-- Truncation toward zero, the semantics of Python int() on a float. -/
def pyTrunc (q : ℚ) : ℤ :=
  if 0 ≤ q then ⌊q⌋ else -⌊-q⌋

/-- Left-pad a string with zero characters up to the given length. -/
def padZeros (d : Nat) (s : String) : String :=
  String.mk (List.replicate (d - s.length) '0') ++ s

/-- Fixed-point rendering of a rational with d decimal digits, as Python
f-string formatting produces on the exactly representable values used here
(Python rounds half to even; this model rounds half up — the two agree on
every value appearing in this development). -/
def fmtFixed (d : Nat) (q : ℚ) : String :=
  let m : ℤ := round (q * ((10 : ℚ) ^ d))
  let sign := if m < 0 then "-" else ""
  let n := m.natAbs
  let ip := n / 10 ^ d
  let fp := n % 10 ^ d
  sign ++ toString ip ++ "." ++ padZeros d (toString fp)

/-- Decide whether the character list m occurs contiguously inside l. -/
def hasRunAux (m : List Char) : List Char → Bool
  | [] => decide (m = [])
  | c :: rest => decide ((c :: rest).take m.length = m) || hasRunAux m rest

/-- Decide whether mark occurs as a contiguous substring of s. -/
def strHasMark (mark s : String) : Bool :=
  hasRunAux mark.toList s.toList

/-- Upsert into an association list, preserving Python dict assignment
semantics: replace in place when the key exists, append otherwise. -/
def setKey {α : Type} (m : List (String × α)) (k : String) (v : α) :
    List (String × α) :=
  if (m.lookup k).isSome then
    m.map (fun p => if p.1 = k then (k, v) else p)
  else m ++ [(k, v)]

/-- Delete a key from an association list (Python del on a dict). -/
def removeKey {α : Type} (m : List (String × α)) (k : String) :
    List (String × α) :=
  m.filter (fun p => p.1 ≠ k)

/-- Snapshot of the market-data dictionary passed around the core; only the
fields the embedded functions read are represented. -/
structure MarketData where
  price : ℚ
  rsi : ℚ
  ema_20 : ℚ
  volatility : ℚ
  trend : String
  volume_spike : Bool
  deriving DecidableEq

namespace LlmBrain

/-- Decision dictionary returned by the advisor module (core/llm_brain.py). -/
structure Decision where
  decision : String
  confidence : ℤ
  reasoning : String
  status : String
  source : String
  error_message : Option String := none
  deriving DecidableEq

/-- Embedding of get_fallback_decision (core/llm_brain.py lines 29-95). -/
def get_fallback_decision (md : MarketData) : Decision :=
  let rsi := md.rsi
  let trend := md.trend
  let volume_spike := md.volume_spike
  let dcr : String × ℚ × String :=
    if trend = "BULLISH" ∧ rsi < 70 ∧ rsi > 30 then
      if rsi < 50 then
        ("BUY", min 75 (50 + (50 - rsi)),
          "Bullish trend with RSI pullback (" ++ fmtFixed 1 rsi ++
            "). H1/H2 setup potential.")
      else if volume_spike then
        ("BUY", 70, "Bullish trend with volume confirmation. RSI: " ++
          fmtFixed 1 rsi)
      else
        ("WAIT", 40, "Bullish trend but waiting for better entry. RSI: " ++
          fmtFixed 1 rsi)
    else if trend = "BEARISH" ∧ rsi > 30 ∧ rsi < 70 then
      if rsi > 50 then
        ("SELL", min 75 (50 + (rsi - 50)),
          "Bearish trend with RSI bounce (" ++ fmtFixed 1 rsi ++
            "). Short setup potential.")
      else if volume_spike then
        ("SELL", 70, "Bearish trend with volume confirmation. RSI: " ++
          fmtFixed 1 rsi)
      else
        ("WAIT", 40, "Bearish trend but waiting for better entry. RSI: " ++
          fmtFixed 1 rsi)
    else if rsi > 75 then
      ("SELL", 65, "RSI overbought (" ++ fmtFixed 1 rsi ++
        "). Potential reversal.")
    else if rsi < 25 then
      ("BUY", 65, "RSI oversold (" ++ fmtFixed 1 rsi ++ "). Potential bounce.")
    else
      ("WAIT", 30, "Market in " ++ trend.toLower ++ " consolidation. RSI: " ++
        fmtFixed 1 rsi ++ ". Waiting for clear setup.")
  { decision := dcr.1
    confidence := pyTrunc dcr.2.1
    reasoning := dcr.2.2 ++ " [Fallback Engine]"
    status := "FALLBACK"
    source := "FALLBACK_ENGINE" }

/-- Module-level maximum number of advisor calls (MAX_DAILY_CALLS). -/
def MAX_DAILY_CALLS : Nat := 15

/-- Per-symbol cache lifetime in seconds (CACHE_DURATION). -/
def CACHE_DURATION : ℚ := 60

/-- Cooldown in seconds after a quota error (COOLDOWN_AFTER_QUOTA). -/
def COOLDOWN_AFTER_QUOTA : ℚ := 3600

/-- One per-symbol cache slot of the module-level cache dict. -/
structure CacheEntry where
  result : Decision
  timestamp : ℚ
  deriving DecidableEq

/-- The module-level mutable globals of core/llm_brain.py. -/
structure BrainState where
  last_api_call : Option ℚ
  api_call_count : Nat
  quota_exceeded_until : Option ℚ
  cache : List (String × CacheEntry)
  deriving DecidableEq

/-- Outcome of the one external advisor call, supplied as an input to the
model: a structurally parsed JSON reply, or a transport/quota failure. -/
inductive AdvisorReply where
  | ok (decision : String) (confidence : Option ℚ) (reasoning : String)
  | failed (isQuota : Bool) (msg : String)
  deriving DecidableEq

/-- Result of one get_trading_decision invocation together with the updated
module state and whether the external advisor was actually contacted. -/
structure StepOut where
  result : Decision
  state : BrainState
  calledAdvisor : Bool
  deriving DecidableEq

/-- Truthiness test of the quota cooldown guard. -/
def quotaActive (st : BrainState) (now : ℚ) : Bool :=
  match st.quota_exceeded_until with
  | some t => decide (now < t)
  | none => false

/-- Embedding of get_trading_decision from the daily-limit gate onward
(core/llm_brain.py lines 111-230): limit gate, client gate, counter bump,
reply validation and clamping, caching, quota cooldown on error. -/
def callAdvisorPhase (st : BrainState) (now : ℚ) (md : MarketData)
    (symbol : String) (use_cache : Bool) (hasClient : Bool)
    (reply : AdvisorReply) : StepOut :=
  if st.api_call_count ≥ MAX_DAILY_CALLS then
    ⟨get_fallback_decision md, st, false⟩
  else if ¬hasClient then
    ⟨get_fallback_decision md, st, false⟩
  else
    let st1 : BrainState :=
      { st with last_api_call := some now,
                api_call_count := st.api_call_count + 1 }
    match reply with
    | .ok d c r =>
        let conf : ℤ :=
          max 0 (min 100 (match c with | some q => pyTrunc q | none => 50))
        let dec : String :=
          if d = "BUY" ∨ d = "SELL" ∨ d = "WAIT" then d else "WAIT"
        let res : Decision :=
          { decision := dec, confidence := conf, reasoning := r,
            status := "SUCCESS", source := "GEMINI" }
        let st2 := if use_cache then
          { st1 with cache := setKey st1.cache symbol ⟨res, now⟩ } else st1
        ⟨res, { st2 with quota_exceeded_until := none }, true⟩
    | .failed isQ m =>
        let st2 := if isQ then
          { st1 with quota_exceeded_until := some (now + COOLDOWN_AFTER_QUOTA) }
          else st1
        let fb := get_fallback_decision md
        let res : Decision :=
          { fb with status := "ERROR", error_message := some m,
                    source := "FALLBACK" }
        let st3 := if use_cache then
          { st2 with cache := setKey st2.cache symbol ⟨res, now⟩ } else st2
        ⟨res, st3, true⟩

/-- Embedding of get_trading_decision (core/llm_brain.py lines 97-230):
quota-cooldown gate, then fresh-cache lookup, then the call phase. -/
def get_trading_decision (st : BrainState) (now : ℚ) (md : MarketData)
    (symbol : String) (use_cache : Bool) (hasClient : Bool)
    (reply : AdvisorReply) : StepOut :=
  if quotaActive st now then ⟨get_fallback_decision md, st, false⟩
  else
    match (if use_cache then st.cache.lookup symbol else none) with
    | some e =>
        if now - e.timestamp < CACHE_DURATION then ⟨e.result, st, false⟩
        else callAdvisorPhase st now md symbol use_cache hasClient reply
    | none => callAdvisorPhase st now md symbol use_cache hasClient reply

/-- A fresh (younger than 60 s) cache entry exists for the symbol. -/
def cacheFresh (st : BrainState) (now : ℚ) (symbol : String)
    (use_cache : Bool) : Bool :=
  match (if use_cache then st.cache.lookup symbol else none) with
  | some e => decide (now - e.timestamp < CACHE_DURATION)
  | none => false

end LlmBrain

namespace StrategyEvaluator

/-- Values flowing through the rule evaluator: Python floats, strings and
booleans (core/strategy_evaluator.py binds exactly these three kinds). -/
inductive PyVal where
  | num (q : ℚ)
  | str (s : String)
  | pbool (b : Bool)
  deriving DecidableEq

/-- The six Python comparison operators. -/
inductive CmpOp where
  | lt | le | gt | ge | eq | ne
  deriving DecidableEq

/-- Fragment of the Python expression grammar reachable from the strings fed
to eval in evaluate_logic: names, literals, the six comparisons, the boolean
operators, and additive arithmetic (which the host eval also accepts). -/
inductive PyExpr where
  | name (s : String)
  | num (q : ℚ)
  | str (s : String)
  | cmp (op : CmpOp) (a b : PyExpr)
  | band (a b : PyExpr)
  | bor (a b : PyExpr)
  | bnot (a : PyExpr)
  | add (a b : PyExpr)
  | sub (a b : PyExpr)
  deriving DecidableEq

/-- Python truthiness of a value. -/
def truthy : PyVal → Bool
  | .num q => decide (q ≠ 0)
  | .str s => decide (s ≠ "")
  | .pbool b => b

/-- Numeric view: floats are numbers and booleans are 0 or 1 (Python bool is
a subtype of int); strings have none. -/
def asNum : PyVal → Option ℚ
  | .num q => some q
  | .pbool b => some (if b then 1 else 0)
  | .str _ => none

/-- Comparison of two rationals under one operator. -/
def cmpQ : CmpOp → ℚ → ℚ → Bool
  | .lt, x, y => decide (x < y)
  | .le, x, y => decide (x ≤ y)
  | .gt, x, y => decide (y < x)
  | .ge, x, y => decide (y ≤ x)
  | .eq, x, y => decide (x = y)
  | .ne, x, y => decide (x ≠ y)

/-- Lexicographic comparison of two strings under one operator. -/
def cmpStr : CmpOp → String → String → Bool
  | .lt, x, y => decide (x < y)
  | .le, x, y => decide (x < y ∨ x = y)
  | .gt, x, y => decide (y < x)
  | .ge, x, y => decide (y < x ∨ x = y)
  | .eq, x, y => decide (x = y)
  | .ne, x, y => decide (x ≠ y)

/-- Python comparison semantics on the modelled values: numeric kinds compare
numerically, strings compare lexicographically, and a mixed pair is unequal
under equality operators but a TypeError (none) under order operators. -/
def evalCmp (op : CmpOp) (a b : PyVal) : Option PyVal :=
  match asNum a, asNum b with
  | some x, some y => some (.pbool (cmpQ op x y))
  | _, _ =>
    match a, b with
    | .str s, .str t => some (.pbool (cmpStr op s t))
    | _, _ =>
      match op with
      | .eq => some (.pbool false)
      | .ne => some (.pbool true)
      | _ => none

/-- Python + on the modelled values: numeric addition (booleans as ints) or
string concatenation; anything else is a TypeError. -/
def pyAdd (a b : PyVal) : Option PyVal :=
  match a, b with
  | .str s, .str t => some (.str (s ++ t))
  | _, _ =>
    match asNum a, asNum b with
    | some x, some y => some (.num (x + y))
    | _, _ => none

/-- Python - on the modelled values: numeric only. -/
def pySub (a b : PyVal) : Option PyVal :=
  match asNum a, asNum b with
  | some x, some y => some (.num (x - y))
  | _, _ => none

/-- Evaluation of the expression fragment under an environment, mirroring
what eval with empty builtins does: a name outside the environment is a
NameError (none); and/or short-circuit returning operand values; any
operand-level TypeError propagates as none. -/
def evalExpr (env : String → Option PyVal) : PyExpr → Option PyVal
  | .name s => env s
  | .num q => some (.num q)
  | .str s => some (.str s)
  | .cmp op a b => do
      let va ← evalExpr env a
      let vb ← evalExpr env b
      evalCmp op va vb
  | .band a b => do
      let va ← evalExpr env a
      if truthy va then evalExpr env b else pure va
  | .bor a b => do
      let va ← evalExpr env a
      if truthy va then pure va else evalExpr env b
  | .bnot a => do
      let va ← evalExpr env a
      pure (.pbool (!truthy va))
  | .add a b => do
      let va ← evalExpr env a
      let vb ← evalExpr env b
      pyAdd va vb
  | .sub a b => do
      let va ← evalExpr env a
      let vb ← evalExpr env b
      pySub va vb

/-- The safe_dict environment built by evaluate_logic
(core/strategy_evaluator.py lines 91-102): exactly these ten bindings. -/
def safeDict (md : MarketData) : List (String × PyVal) :=
  [("rsi", .num md.rsi),
   ("price", .num md.price),
   ("ema_20", .num md.ema_20),
   ("volatility", .num md.volatility),
   ("trend", .str md.trend),
   ("volume_spike", .pbool md.volume_spike),
   ("True", .pbool true),
   ("False", .pbool false),
   ("true", .pbool true),
   ("false", .pbool false)]

/-- Embedding of evaluate_logic (core/strategy_evaluator.py lines 66-110).
The input is the parsed predicate; none stands for source text that does not
parse, which the surrounding except turns into False, as it does every other
evaluation error. -/
def evaluate_logic (logic : Option PyExpr) (md : MarketData) : Bool :=
  match logic with
  | none => false
  | some e =>
    match evalExpr (fun s => (safeDict md).lookup s) e with
    | some v => truthy v
    | none => false

/-- One row of the strategies table as the evaluator consumes it. -/
structure Strategy where
  sid : ℤ
  name : String
  logic : Option PyExpr
  action : String
  description : String
  deriving DecidableEq

/-- The dictionary appended for a triggered strategy. -/
structure TriggeredEntry where
  strategy_id : ℤ
  name : String
  action : String
  logic : Option PyExpr
  description : String
  deriving DecidableEq

/-- Row-to-entry conversion used on a trigger. -/
def mkTriggered (s : Strategy) : TriggeredEntry :=
  ⟨s.sid, s.name, s.action, s.logic, s.description⟩

/-- Embedding of the evaluation loop of evaluate_strategies
(core/strategy_evaluator.py lines 44-57); the database fetch is a boundary
and the active rows arrive as the input list. -/
def evaluate_strategies (strats : List Strategy) (md : MarketData) :
    List TriggeredEntry :=
  match strats with
  | [] => []
  | s :: rest =>
    if evaluate_logic s.logic md then
      mkTriggered s :: evaluate_strategies rest md
    else evaluate_strategies rest md

/-- The ten identifiers bound by safe_dict. -/
def envNames : List String :=
  ["rsi", "price", "ema_20", "volatility", "trend", "volume_spike",
   "True", "False", "true", "false"]

end StrategyEvaluator

namespace WeexClient

/-- One OHLCV candle of the market-data adapter. -/
structure Candle where
  open_time : ℤ
  opn : ℚ
  hi : ℚ
  lo : ℚ
  cls : ℚ
  vol : ℚ
  deriving DecidableEq

/-- What the upstream data source handed back: a parsed JSON list, some
other JSON value, or a network/parse failure. -/
inductive UpstreamData where
  | jsonList (cs : List Candle)
  | jsonOther
  | netError
  deriving DecidableEq

/-- Embedding of WeexClient._generate_mock_candles (core/weex_api.py lines
344-358): a random walk from 98000 whose draws (change, high pad, low pad)
are supplied explicitly. -/
def generate_mock_candles (limit : Nat) (now : ℤ)
    (draws : List (ℚ × ℚ × ℚ)) : List Candle :=
  ((List.range limit).foldl
    (fun (st : List Candle × ℚ) i =>
      let d := draws.getD i (0, 0, 0)
      let openP := st.2
      let closeP := openP + d.1
      let hiP := max openP closeP + d.2.1
      let loP := min openP closeP - d.2.2
      let ts := now - (((limit : ℤ) - (i : ℤ)) * 15 * 60 * 1000)
      (st.1 ++ [⟨ts, openP, hiP, loP, closeP, 1000⟩], closeP))
    ([], 98000)).1

/-- Embedding of WeexClient.fetch_candles (core/weex_api.py lines 123-150):
a non-empty upstream list is returned as is; everything else falls back to
the synthetic series. -/
def fetch_candles (upstream : UpstreamData) (limit : Nat) (now : ℤ)
    (draws : List (ℚ × ℚ × ℚ)) : List Candle :=
  match upstream with
  | .jsonList cs =>
      if cs.length > 0 then cs else generate_mock_candles limit now draws
  | _ => generate_mock_candles limit now draws

/-- Strictly ascending open_time, the series ordering the spec asserts. -/
def sortedStrict : List Candle → Bool
  | [] => true
  | [_] => true
  | a :: b :: rest =>
    decide (a.open_time < b.open_time) && sortedStrict (b :: rest)

end WeexClient

namespace ExecutionSafetyLayer

/-- Result record of one safety check (core/safety_layer.py lines 15-21).
Messages reproduce the fixed text of the source; the interpolated numeric
values are omitted since no claim concerns them. -/
structure SafetyCheckResult where
  passed : Bool
  check_name : String
  message : String
  severity : String
  deriving DecidableEq

/-- The slice of an open position the safety layer reads. -/
structure PosInfo where
  symbol : String
  margin_used : ℚ
  deriving DecidableEq

/-- Mutable fields of ExecutionSafetyLayer (core/safety_layer.py lines
81-92); dates are integers ordered as calendar days. -/
structure SafetyState where
  current_equity : ℚ
  peak_equity : ℚ
  daily_starting_equity : ℚ
  last_reset_date : ℤ
  total_checks : Nat
  total_rejections : Nat
  rejection_reasons : List (String × Nat)
  deriving DecidableEq

/-- Safety parameter MIN_LIQUIDATION_DISTANCE_PCT. -/
def MIN_LIQUIDATION_DISTANCE_PCT : ℚ := 4 / 100

/-- Safety parameter MAX_DAILY_LOSS_PCT. -/
def MAX_DAILY_LOSS_PCT : ℚ := 3 / 100

/-- Safety parameter MAX_DRAWDOWN_PCT. -/
def MAX_DRAWDOWN_PCT : ℚ := 12 / 100

/-- Safety parameter MAX_EXPOSURE_PCT. -/
def MAX_EXPOSURE_PCT : ℚ := 40 / 100

/-- Per-symbol minimum order sizes (core/safety_layer.py lines 51-60). -/
def MIN_ORDER_SIZES : List (String × ℚ) :=
  [("cmt_btcusdt", 1/1000), ("cmt_ethusdt", 1/100), ("cmt_solusdt", 1/10),
   ("cmt_dogeusdt", 10), ("cmt_xrpusdt", 1), ("cmt_adausdt", 1),
   ("cmt_bnbusdt", 1/100), ("cmt_ltcusdt", 1/100)]

/-- Correlation groups (core/safety_layer.py lines 62-67). -/
def CORRELATION_GROUPS : List (String × List String) :=
  [("A", ["cmt_btcusdt", "cmt_ethusdt"]),
   ("B", ["cmt_solusdt", "cmt_dogeusdt"]),
   ("C", ["cmt_bnbusdt", "cmt_ltcusdt"]),
   ("D", ["cmt_xrpusdt", "cmt_adausdt"])]

/-- Embedding of reset_daily_tracking (core/safety_layer.py lines 96-102). -/
def reset_daily_tracking (st : SafetyState) (today : ℤ) : SafetyState :=
  if today > st.last_reset_date then
    { st with daily_starting_equity := st.current_equity,
              last_reset_date := today }
  else st

/-- Embedding of check_margin_availability (lines 109-145).  The except arm
corresponds to the ZeroDivisionError of the usage-percentage computation
when equity is zero. -/
def check_margin_availability (st : SafetyState) (required_margin : ℚ)
    (current_positions : List PosInfo) : SafetyCheckResult :=
  let used_margin := (current_positions.map (·.margin_used)).sum
  let available_margin := st.current_equity - used_margin
  if required_margin > available_margin then
    ⟨false, "MARGIN_AVAILABILITY", "Insufficient margin", "CRITICAL"⟩
  else if st.current_equity = 0 then
    ⟨false, "MARGIN_AVAILABILITY", "Error checking margin", "CRITICAL"⟩
  else
    ⟨true, "MARGIN_AVAILABILITY", "Margin OK", "INFO"⟩

/-- Embedding of check_liquidation_distance (lines 147-189).  The except arm
corresponds to division by a zero leverage or entry price. -/
def check_liquidation_distance (entry_price : ℚ) (direction : String)
    (leverage : ℤ) (stop_loss : ℚ) : SafetyCheckResult :=
  if leverage = 0 ∨ entry_price = 0 then
    ⟨false, "LIQUIDATION_DISTANCE", "Error checking liquidation", "CRITICAL"⟩
  else
    let distance_from_liq :=
      if direction = "LONG" then
        let liq_price := entry_price * (1 - (1 / (leverage : ℚ)) * (9/10))
        (stop_loss - liq_price) / entry_price
      else
        let liq_price := entry_price * (1 + (1 / (leverage : ℚ)) * (9/10))
        (liq_price - stop_loss) / entry_price
    if distance_from_liq * 100 < MIN_LIQUIDATION_DISTANCE_PCT * 100 then
      ⟨false, "LIQUIDATION_DISTANCE", "Stop loss too close to liquidation",
        "CRITICAL"⟩
    else
      ⟨true, "LIQUIDATION_DISTANCE", "Liquidation distance OK", "INFO"⟩

/-- Embedding of check_minimum_order_size (lines 191-208). -/
def check_minimum_order_size (symbol : String) (size : ℚ) :
    SafetyCheckResult :=
  let min_size := (MIN_ORDER_SIZES.lookup symbol).getD (1/1000)
  if size < min_size then
    ⟨false, "MINIMUM_ORDER_SIZE", "Order size below minimum", "CRITICAL"⟩
  else
    ⟨true, "MINIMUM_ORDER_SIZE", "Order size OK", "INFO"⟩

/-- Embedding of check_daily_loss_limit (lines 210-232); it first runs the
daily reset, so the state is threaded through. -/
def check_daily_loss_limit (st : SafetyState) (today : ℤ) :
    SafetyCheckResult × SafetyState :=
  let st1 := reset_daily_tracking st today
  let daily_pnl := st1.current_equity - st1.daily_starting_equity
  let daily_pnl_pct := daily_pnl / st1.daily_starting_equity
  if daily_pnl_pct < -MAX_DAILY_LOSS_PCT then
    (⟨false, "DAILY_LOSS_LIMIT", "Daily loss limit exceeded", "CRITICAL"⟩, st1)
  else
    (⟨true, "DAILY_LOSS_LIMIT", "Daily loss OK", "INFO"⟩, st1)

/-- Embedding of check_max_drawdown (lines 234-253). -/
def check_max_drawdown (st : SafetyState) : SafetyCheckResult :=
  let drawdown := (st.peak_equity - st.current_equity) / st.peak_equity
  if drawdown > MAX_DRAWDOWN_PCT then
    ⟨false, "MAX_DRAWDOWN", "Max drawdown exceeded", "CRITICAL"⟩
  else
    ⟨true, "MAX_DRAWDOWN", "Drawdown OK", "INFO"⟩

/-- Embedding of check_exposure_limit (lines 255-278). -/
def check_exposure_limit (st : SafetyState) (new_margin : ℚ)
    (current_positions : List PosInfo) : SafetyCheckResult :=
  let used_margin := (current_positions.map (·.margin_used)).sum
  let exposure_pct := (used_margin + new_margin) / st.current_equity
  if exposure_pct > MAX_EXPOSURE_PCT then
    ⟨false, "EXPOSURE_LIMIT", "Exposure limit exceeded", "CRITICAL"⟩
  else
    ⟨true, "EXPOSURE_LIMIT", "Exposure OK", "INFO"⟩

/-- First correlation group whose member list contains the symbol. -/
def groupOf (symbol : String) : Option String :=
  (CORRELATION_GROUPS.find? (fun gp => gp.2.contains symbol)).map (·.1)

/-- Embedding of check_correlation_conflict (lines 280-316): a conflict with
an already open same-group position fails the check with severity WARNING. -/
def check_correlation_conflict (symbol : String)
    (current_positions : List PosInfo) : SafetyCheckResult :=
  match groupOf symbol with
  | none => ⟨true, "CORRELATION_CONFLICT", "No correlation group", "INFO"⟩
  | some g =>
    if current_positions.any (fun p =>
        CORRELATION_GROUPS.any (fun gp =>
          gp.1 == g && gp.2.contains p.symbol && p.symbol != symbol)) then
      ⟨false, "CORRELATION_CONFLICT", "Correlation conflict", "WARNING"⟩
    else
      ⟨true, "CORRELATION_CONFLICT", "No correlation conflict", "INFO"⟩

/-- Embedding of check_symbol_validity (lines 318-335). -/
def check_symbol_validity (symbol : String) : SafetyCheckResult :=
  if (MIN_ORDER_SIZES.map (·.1)).contains symbol then
    ⟨true, "SYMBOL_VALIDITY", "Symbol valid", "INFO"⟩
  else
    ⟨false, "SYMBOL_VALIDITY", "Invalid symbol", "CRITICAL"⟩

/-- Embedding of check_price_reasonableness (lines 337-370). -/
def check_price_reasonableness (entry_price stop_loss take_profit : ℚ) :
    SafetyCheckResult :=
  if entry_price ≤ 0 ∨ stop_loss ≤ 0 ∨ take_profit ≤ 0 then
    ⟨false, "PRICE_REASONABLENESS", "Invalid prices", "CRITICAL"⟩
  else
    let stop_distance := |entry_price - stop_loss|
    let profit_distance := |take_profit - entry_price|
    let risk_reward :=
      if stop_distance > 0 then profit_distance / stop_distance else 0
    if risk_reward < 1 then
      ⟨false, "PRICE_REASONABLENESS", "Poor risk to reward", "CRITICAL"⟩
    else
      ⟨true, "PRICE_REASONABLENESS", "Prices OK", "INFO"⟩

/-- Increment a rejection-reason counter, Python dict.get plus assignment. -/
def bumpReason (m : List (String × Nat)) (k : String) : List (String × Nat) :=
  match m.lookup k with
  | some _ => m.map (fun p => if p.1 = k then (p.1, p.2 + 1) else p)
  | none => m ++ [(k, 1)]

/-- Output bundle of validate_trade. -/
structure ValidationOut where
  can_execute : Bool
  results : List SafetyCheckResult
  state : SafetyState
  deriving DecidableEq

/-- Embedding of validate_trade (core/safety_layer.py lines 372-431): the
nine checks in source order, approval iff no CRITICAL failure, and the
statistics updates. -/
def validate_trade (st : SafetyState) (today : ℤ) (symbol direction : String)
    (size entry_price stop_loss take_profit : ℚ) (leverage : ℤ)
    (margin_required : ℚ) (current_positions : List PosInfo) :
    ValidationOut :=
  let st0 := { st with total_checks := st.total_checks + 1 }
  let r1 := check_symbol_validity symbol
  let r2 := check_minimum_order_size symbol size
  let r3 := check_price_reasonableness entry_price stop_loss take_profit
  let r4 := check_margin_availability st0 margin_required current_positions
  let r5 := check_liquidation_distance entry_price direction leverage stop_loss
  let r6s := check_daily_loss_limit st0 today
  let r7 := check_max_drawdown r6s.2
  let r8 := check_exposure_limit r6s.2 margin_required current_positions
  let r9 := check_correlation_conflict symbol current_positions
  let results := [r1, r2, r3, r4, r5, r6s.1, r7, r8, r9]
  let critical_failures :=
    results.filter (fun r => !r.passed && r.severity == "CRITICAL")
  let can_execute := critical_failures.isEmpty
  let st2 :=
    if can_execute then r6s.2
    else
      { r6s.2 with
        total_rejections := r6s.2.total_rejections + 1,
        rejection_reasons :=
          critical_failures.foldl (fun m r => bumpReason m r.check_name)
            r6s.2.rejection_reasons }
  ⟨can_execute, results, st2⟩

end ExecutionSafetyLayer

namespace RiskManager

/-- Structured rendering of the reason strings appended by
can_open_position (risk/risk_manager.py lines 294-336); the interpolated
numeric text is omitted. -/
inductive Reason where
  | dailyLossLimit
  | maxDrawdownHit
  | corrGroup (group : String) (sym : String)
  | maxPositions
  | maxExposure
  deriving DecidableEq

/-- Risk parameter RISK_PER_TRADE. -/
def RISK_PER_TRADE : ℚ := 125 / 10000

/-- Risk parameter MAX_DAILY_LOSS. -/
def MAX_DAILY_LOSS : ℚ := 3 / 100

/-- Risk parameter MAX_DRAWDOWN. -/
def MAX_DRAWDOWN : ℚ := 12 / 100

/-- Risk parameter MAX_EXPOSURE. -/
def MAX_EXPOSURE : ℚ := 40 / 100

/-- Correlation groups (risk/risk_manager.py lines 91-96). -/
def CORRELATION_GROUPS : List (String × List String) :=
  [("A", ["cmt_btcusdt", "cmt_ethusdt"]),
   ("B", ["cmt_solusdt", "cmt_dogeusdt"]),
   ("C", ["cmt_bnbusdt", "cmt_ltcusdt"]),
   ("D", ["cmt_xrpusdt", "cmt_adausdt"])]

/-- One entry of the positions dict of RiskManager; highest_price doubles as
the running minimum for SHORT positions, as in the source. -/
structure RPos where
  direction : String
  entry_price : ℚ
  size : ℚ
  stop_loss : ℚ
  take_profit : ℚ
  trailing_stop : Option ℚ
  margin_used : ℚ
  atr : ℚ
  entry_time : ℚ
  highest_price : ℚ
  pstate : String
  deriving DecidableEq

/-- Mutable fields of RiskManager (risk/risk_manager.py lines 98-112). -/
structure RiskState where
  initial_equity : ℚ
  peak_equity : ℚ
  current_equity : ℚ
  daily_starting_equity : ℚ
  last_reset_date : ℤ
  positions : List (String × RPos)
  daily_pnl : ℚ
  total_pnl : ℚ
  risk_alerts : List Reason
  deriving DecidableEq

/-- Embedding of RiskManager.reset_daily_tracking (lines 114-121). -/
def reset_daily_tracking (st : RiskState) (today : ℤ) : RiskState :=
  if today > st.last_reset_date then
    { st with daily_starting_equity := st.current_equity,
              daily_pnl := 0,
              last_reset_date := today,
              risk_alerts := [] }
  else st

/-- Embedding of RiskManager._get_correlation_group (lines 338-343). -/
def get_correlation_group (symbol : String) : Option String :=
  (CORRELATION_GROUPS.find? (fun gp => gp.2.contains symbol)).map (·.1)

/-- Embedding of RiskManager.can_open_position (lines 294-336): the four
reason sources in source order; the trade is allowed iff no reason
accumulated. -/
def can_open_position (st : RiskState) (symbol : String) :
    Bool × List Reason :=
  let daily_loss_pct :=
    (st.current_equity - st.daily_starting_equity) / st.daily_starting_equity
  let r1 : List Reason :=
    if daily_loss_pct < -MAX_DAILY_LOSS then [.dailyLossLimit] else []
  let drawdown := (st.peak_equity - st.current_equity) / st.peak_equity
  let r2 : List Reason :=
    if drawdown > MAX_DRAWDOWN then [.maxDrawdownHit] else []
  let r3 : List Reason :=
    match get_correlation_group symbol with
    | none => []
    | some g =>
      CORRELATION_GROUPS.flatMap (fun gp =>
        if gp.1 = g then
          (gp.2.filter (fun sym =>
            (st.positions.lookup sym).isSome && sym != symbol)).map
            (fun sym => Reason.corrGroup gp.1 sym)
        else [])
  let r4 : List Reason :=
    if st.positions.length ≥ 1 then [.maxPositions] else []
  let used_margin := (st.positions.map (·.2.margin_used)).sum
  let exposure_pct := used_margin / st.current_equity
  let r5 : List Reason :=
    if exposure_pct ≥ MAX_EXPOSURE then [.maxExposure] else []
  let reasons := r1 ++ r2 ++ r3 ++ r4 ++ r5
  (reasons.isEmpty, reasons)

/-- Embedding of RiskManager.open_position (lines 345-380). -/
def open_position (st : RiskState) (symbol direction : String)
    (entry_price size stop_loss take_profit margin_used atr now : ℚ) :
    Bool × RiskState :=
  let cr := can_open_position st symbol
  if cr.1 then
    let pos : RPos :=
      { direction := direction, entry_price := entry_price, size := size,
        stop_loss := stop_loss, take_profit := take_profit,
        trailing_stop := none, margin_used := margin_used, atr := atr,
        entry_time := now, highest_price := entry_price,
        pstate := if direction = "LONG" then "LONG" else "SHORT" }
    (true, { st with positions := setKey st.positions symbol pos })
  else
    (false, { st with risk_alerts := st.risk_alerts ++ cr.2 })

/-- Embedding of RiskManager.calculate_trailing_stop (lines 264-292): the
stop engages on any profit; the reference extreme falls back to the current
price when the passed extreme is Python-falsy (absent or exactly zero). -/
def calculate_trailing_stop (entry_price current_price atr : ℚ)
    (direction : String) (highest_price : Option ℚ) : Option ℚ :=
  let extreme :=
    match highest_price with
    | some x => if x = 0 then current_price else x
    | none => current_price
  if direction = "LONG" then
    if current_price ≤ entry_price then none
    else some (max (extreme - 2 * atr) entry_price)
  else
    if current_price ≥ entry_price then none
    else some (min (extreme + 2 * atr) entry_price)

/-- The per-position risk metrics returned by update_position. -/
structure PositionRisk where
  symbol : String
  size : ℚ
  entry_price : ℚ
  current_price : ℚ
  stop_loss : ℚ
  take_profit : ℚ
  trailing_stop : Option ℚ
  unrealized_pnl : ℚ
  unrealized_pnl_pct : ℚ
  risk_amount : ℚ
  reward_amount : ℚ
  risk_reward : ℚ
  time_in_position : ℚ
  margin_used : ℚ
  deriving DecidableEq

/-- Embedding of RiskManager.update_position (lines 382-448): extreme-price
update, trailing-stop computation and conditional stop replacement, then the
risk metrics; none models the ValueError on an unknown symbol. -/
def update_position (st : RiskState) (symbol : String)
    (current_price atr now : ℚ) : Option (RiskState × PositionRisk) :=
  match st.positions.lookup symbol with
  | none => none
  | some pos =>
    let highest :=
      if pos.direction = "LONG" then max pos.highest_price current_price
      else min pos.highest_price current_price
    let pos1 := { pos with highest_price := highest }
    let ts := calculate_trailing_stop pos.entry_price current_price atr
      pos.direction (some highest)
    let pos2 :=
      match ts with
      | some t =>
        if pos.direction = "LONG" ∧ t > pos1.stop_loss then
          { pos1 with stop_loss := t, trailing_stop := some t }
        else if pos.direction = "SHORT" ∧ t < pos1.stop_loss then
          { pos1 with stop_loss := t, trailing_stop := some t }
        else pos1
      | none => pos1
    let unrealized_pnl :=
      if pos.direction = "LONG" then
        (current_price - pos.entry_price) * pos.size
      else (pos.entry_price - current_price) * pos.size
    let unrealized_pnl_pct :=
      if pos.margin_used > 0 then unrealized_pnl / pos.margin_used * 100
      else 0
    let risk_amount := |pos.entry_price - pos2.stop_loss| * pos.size
    let reward_amount := |pos.take_profit - pos.entry_price| * pos.size
    let rr := if risk_amount > 0 then reward_amount / risk_amount else 0
    some ({ st with positions := setKey st.positions symbol pos2 },
      { symbol := symbol, size := pos.size, entry_price := pos.entry_price,
        current_price := current_price, stop_loss := pos2.stop_loss,
        take_profit := pos.take_profit, trailing_stop := pos2.trailing_stop,
        unrealized_pnl := unrealized_pnl,
        unrealized_pnl_pct := unrealized_pnl_pct,
        risk_amount := risk_amount, reward_amount := reward_amount,
        risk_reward := rr, time_in_position := (now - pos.entry_time) / 3600,
        margin_used := pos.margin_used })

end RiskManager

namespace UnifiedPositionManager

/-- Trailing parameter TRAILING_STOP_ACTIVATION_R. -/
def TRAILING_STOP_ACTIVATION_R : ℚ := 1

/-- Trailing parameter TRAILING_STOP_ATR_MULTIPLIER. -/
def TRAILING_STOP_ATR_MULTIPLIER : ℚ := 2

/-- The unified position model (core/position_manager.py lines 26-49),
restricted to the fields the embedded operations read or write. -/
structure PMPos where
  symbol : String
  side : String
  direction : String
  size : ℚ
  entry_price : ℚ
  current_price : ℚ
  stop_loss : ℚ
  take_profit : ℚ
  trailing_stop : Option ℚ
  margin_used : ℚ
  opened_at : ℚ
  order_id : Option String
  source : String
  highest_price : ℚ
  lowest_price : ℚ
  atr : ℚ
  deriving DecidableEq

/-- Embedding of UnifiedPositionManager._update_trailing_stop
(core/position_manager.py lines 225-267): no action on zero risk distance,
non-positive profit, or profit below one R of the current working stop;
otherwise the trailing level is the running extreme shifted by 2 ATR, and
the working stop is replaced only when the trailing level improved and beats
the current stop. -/
def updateTrailingStop (pos : PMPos) : PMPos :=
  let risk_distance := |pos.entry_price - pos.stop_loss|
  if risk_distance = 0 then pos
  else
    let current_profit :=
      if pos.direction = "LONG" then pos.current_price - pos.entry_price
      else pos.entry_price - pos.current_price
    if current_profit ≤ 0 then pos
    else if current_profit / risk_distance < TRAILING_STOP_ACTIVATION_R then
      pos
    else
      let trail_distance := TRAILING_STOP_ATR_MULTIPLIER * pos.atr
      if pos.direction = "LONG" then
        let new_ts := pos.highest_price - trail_distance
        if pos.trailing_stop.elim true (fun t => new_ts > t) then
          let pos1 := { pos with trailing_stop := some new_ts }
          if new_ts > pos.stop_loss then { pos1 with stop_loss := new_ts }
          else pos1
        else pos
      else
        let new_ts := pos.lowest_price + trail_distance
        if pos.trailing_stop.elim true (fun t => new_ts < t) then
          let pos1 := { pos with trailing_stop := some new_ts }
          if new_ts < pos.stop_loss then { pos1 with stop_loss := new_ts }
          else pos1
        else pos

/-- One entry of the exchange position listing. -/
structure WPos where
  symbol : String
  size : ℚ
  deriving DecidableEq

/-- The trade record persisted by close_position (lines 370-381). -/
structure TradeRec where
  symbol : String
  side : String
  size : ℚ
  price : ℚ
  order_id : Option String
  order_type : String
  status : String
  pnl : ℚ
  fees : ℚ
  notes : String
  deriving DecidableEq

/-- Outcome of one close_position call: the persisted record if a position
existed, whether a close order went out to the exchange, the surviving
position map, and whether the store rows were written. -/
structure CloseOut where
  record : Option TradeRec
  orderSubmitted : Bool
  positions : List (String × PMPos)
  dbClosed : Bool
  deriving DecidableEq

/-- The notes field of the persisted record (line 380). -/
def closeNotes (reason source : String) (entry_price hold : ℚ) : String :=
  reason ++ " | " ++ source ++ " | Entry: " ++ fmtFixed 2 entry_price ++
    " | Hold: " ++ fmtFixed 1 hold ++ "h"

/-- Whether the exchange listing reports the symbol as still open
(lines 329-341). -/
def presentOnExchange (listing : Option (String × List WPos))
    (symbol : String) : Bool :=
  match listing with
  | some (code, data) => code == "00000" && data.any (fun w => w.symbol == symbol)
  | none => false

/-- Embedding of UnifiedPositionManager.close_position (core/
position_manager.py lines 294-403).  Inputs beyond the manager state are the
exchange position listing and the close-order response the exchange would
give; lock handling is modelled separately by the event traces below. -/
def close_position (positions : List (String × PMPos)) (symbol : String)
    (exit_price : ℚ) (reason : String) (now : ℚ)
    (listing : Option (String × List WPos))
    (orderResp : Option (String × Option String)) : CloseOut :=
  match positions.lookup symbol with
  | none => ⟨none, false, positions, false⟩
  | some pos =>
    let realized_pnl :=
      if pos.direction = "LONG" then (exit_price - pos.entry_price) * pos.size
      else (pos.entry_price - exit_price) * pos.size
    let hold := (now - pos.opened_at) / 3600
    let present := presentOnExchange listing symbol
    let orderSubmitted := present
    let close_order_id : Option String :=
      if present then
        match orderResp with
        | some (code, oid) => if code = "00000" then oid else none
        | none => none
      else none
    let recOrderId : Option String :=
      match close_order_id with
      | some s => if s = "" then pos.order_id else some s
      | none => pos.order_id
    let record : TradeRec :=
      { symbol := symbol, side := pos.side, size := pos.size,
        price := exit_price, order_id := recOrderId, order_type := "market",
        status := "filled", pnl := realized_pnl, fees := 0,
        notes := closeNotes reason pos.source pos.entry_price hold }
    ⟨some record, orderSubmitted, removeKey positions symbol, true⟩

/-- Events of the monitor loop relevant to the lock discipline. -/
inductive MEv where
  | acquire
  | release
  | fetchCandles
  | fetchPositions
  | closeOrder
  | dbWrite
  deriving DecidableEq

/-- Lock-relevant event sequence of update_position_price (lines 185-223):
it takes the positions lock itself. -/
def update_position_price_events : List MEv :=
  [.acquire, .dbWrite, .release]

/-- Lock-relevant event sequence of close_position (lines 294-403) on the
path that submits a close order: the whole body, exchange calls included,
runs inside with position_lock. -/
def close_position_events : List MEv :=
  [.acquire, .fetchPositions, .closeOrder, .dbWrite, .release]

/-- Lock-relevant event sequence of one monitor_loop iteration (lines
405-441): the with position_lock block spans the per-symbol price updates
and the close_position calls for the collected symbols. -/
def monitor_iteration_events (syms toClose : List String) : List MEv :=
  [.acquire] ++
    (syms.flatMap (fun _ => [MEv.fetchCandles] ++ update_position_price_events)) ++
    (toClose.flatMap (fun _ => close_position_events)) ++
    [.release]

/-- Annotate each event with the lock depth in force when it happens,
counting acquisitions as a reentrant lock would. -/
def depthsFrom : Nat → List MEv → List (MEv × Nat)
  | _, [] => []
  | d, e :: es =>
    (e, d) ::
      depthsFrom (match e with
        | .acquire => d + 1
        | .release => d - 1
        | _ => d) es

/-- The property the spec asserts: every close order happens with the
positions lock free. -/
def closeOrdersOutsideLock (es : List MEv) : Bool :=
  (depthsFrom 0 es).all (fun p => p.1 != MEv.closeOrder || p.2 == 0)

/-- Execution of an event list against a non-reentrant mutex, the semantics
of threading.Lock: acquiring while held blocks forever (none). -/
def runNonReentrant : Bool → List MEv → Option Bool
  | held, [] => some held
  | held, .acquire :: es => if held then none else runNonReentrant true es
  | _, .release :: es => runNonReentrant false es
  | held, _ :: es => runNonReentrant held es

end UnifiedPositionManager

/-- Association-list lookup succeeds exactly on the stored keys. -/
theorem lookup_isSome_iff {α : Type} (l : List (String × α)) (s : String) :
    ((l.lookup s).isSome = true) ↔ s ∈ l.map (·.1) := by
  induction l with
  | nil => simp [List.lookup]
  | cons p rest ih =>
    obtain ⟨k, v⟩ := p
    by_cases h : s = k
    · subst h
      simp [List.lookup]
    · have hb : (s == k) = false := by simp [h]
      simp [List.lookup, hb, h, ih]

/-- Lookup after key removal yields nothing for the removed key. -/
theorem removeKey_lookup_none {α : Type} (m : List (String × α))
    (k : String) : (removeKey m k).lookup k = none := by
  induction m with
  | nil => simp [removeKey]
  | cons p rest ih =>
    by_cases h : p.1 = k
    · simpa [removeKey, h] using ih
    · have hb : (k == p.1) = false := by simp [Ne.symm h]
      simpa [removeKey, h, List.lookup, hb] using ih

/-- C6 (code_bug evidence): in one monitor-loop iteration with a single
open position collected for closing, the close order is issued while the
positions lock is held (lock depth is not zero at the close-order event),
and under the non-reentrant semantics of threading.Lock the iteration
deadlocks at the nested re-acquisition, contrary to the specified
release-before-close discipline. -/
theorem monitor_close_inside_lock :
    UnifiedPositionManager.closeOrdersOutsideLock
      (UnifiedPositionManager.monitor_iteration_events
        ["cmt_btcusdt"] ["cmt_btcusdt"]) = false
  ∧ UnifiedPositionManager.runNonReentrant false
      (UnifiedPositionManager.monitor_iteration_events
        ["cmt_btcusdt"] ["cmt_btcusdt"]) = none := by
  constructor <;> rfl

/-- C3 (counterexample): on a Bullish trend with RSI 60 and no volume
spike, the heuristic fallback answers Wait with confidence 40, not Buy as
the claim prescribes for every Bullish input with 30 < RSI < 70. -/
theorem fallback_bullish_midrsi_waits :
    (LlmBrain.get_fallback_decision
      ⟨100, 60, 101, 0, "BULLISH", false⟩).decision = "WAIT"
  ∧ (LlmBrain.get_fallback_decision
      ⟨100, 60, 101, 0, "BULLISH", false⟩).confidence = 40
  ∧ (LlmBrain.get_fallback_decision
      ⟨100, 60, 101, 0, "BULLISH", false⟩).decision ≠ "BUY" := by
  refine ⟨rfl, by decide, by decide⟩

/-- C7 (counterexample): the evaluator environment is not limited to the
eight names of the claim and the operators are not limited to comparisons
and boolean connectives: the bare name true (lowercase) evaluates to a
truthy value instead of faulting, and an arithmetic predicate rsi + 1 > rsi
evaluates to true instead of faulting. -/
theorem eval_env_and_ops_beyond_claim :
    StrategyEvaluator.evaluate_logic
      (some (.name "true")) ⟨100, 50, 100, 0, "NEUTRAL", false⟩ = true
  ∧ StrategyEvaluator.evaluate_logic
      (some (.cmp .gt (.add (.name "rsi") (.num 1)) (.name "rsi")))
      ⟨100, 50, 100, 0, "NEUTRAL", false⟩ = true := by
  refine ⟨rfl, ?_⟩
  simp only [StrategyEvaluator.evaluate_logic, StrategyEvaluator.evalExpr,
    StrategyEvaluator.safeDict, List.lookup, StrategyEvaluator.pyAdd,
    StrategyEvaluator.asNum, StrategyEvaluator.evalCmp,
    StrategyEvaluator.cmpQ, StrategyEvaluator.truthy, Option.bind]
  norm_num

/-- C8 (counterexample): an upstream series with a duplicated and
out-of-order timestamp is handed through fetch_candles verbatim — the
returned series is neither sorted ascending by open_time nor free of
duplicate timestamps. -/
theorem fetch_candles_unsorted_passthrough :
    WeexClient.fetch_candles
      (.jsonList [⟨5, 1, 1, 1, 1, 1⟩, ⟨5, 2, 2, 2, 2, 2⟩, ⟨3, 1, 1, 1, 1, 1⟩])
      3 0 []
      = [⟨5, 1, 1, 1, 1, 1⟩, ⟨5, 2, 2, 2, 2, 2⟩, ⟨3, 1, 1, 1, 1, 1⟩]
  ∧ WeexClient.sortedStrict
      [⟨5, 1, 1, 1, 1, 1⟩, ⟨5, 2, 2, 2, 2, 2⟩, ⟨3, 1, 1, 1, 1, 1⟩] = false
  ∧ ¬ (([⟨5, 1, 1, 1, 1, 1⟩, ⟨5, 2, 2, 2, 2, 2⟩,
        ⟨3, 1, 1, 1, 1, 1⟩] : List WeexClient.Candle).map
          (·.open_time)).Nodup := by
  refine ⟨rfl, by decide, by decide⟩

/-- The symbol-validity check always carries its name, a three-valued
severity, and fails only as CRITICAL. -/
theorem check_symbol_validity_shape (s : String) :
    (ExecutionSafetyLayer.check_symbol_validity s).check_name =
      "SYMBOL_VALIDITY"
  ∧ ((ExecutionSafetyLayer.check_symbol_validity s).severity = "CRITICAL"
      ∨ (ExecutionSafetyLayer.check_symbol_validity s).severity = "WARNING"
      ∨ (ExecutionSafetyLayer.check_symbol_validity s).severity = "INFO") := by
  unfold ExecutionSafetyLayer.check_symbol_validity
  split <;> simp

/-- The minimum-order-size check always carries its name and a three-valued
severity. -/
theorem check_minimum_order_size_shape (s : String) (size : ℚ) :
    (ExecutionSafetyLayer.check_minimum_order_size s size).check_name =
      "MINIMUM_ORDER_SIZE"
  ∧ ((ExecutionSafetyLayer.check_minimum_order_size s size).severity =
        "CRITICAL"
      ∨ (ExecutionSafetyLayer.check_minimum_order_size s size).severity =
        "WARNING"
      ∨ (ExecutionSafetyLayer.check_minimum_order_size s size).severity =
        "INFO") := by
  unfold ExecutionSafetyLayer.check_minimum_order_size
  dsimp only
  split <;> simp

/-- The price-reasonableness check always carries its name and a
three-valued severity. -/
theorem check_price_reasonableness_shape (e sl tp : ℚ) :
    (ExecutionSafetyLayer.check_price_reasonableness e sl tp).check_name =
      "PRICE_REASONABLENESS"
  ∧ ((ExecutionSafetyLayer.check_price_reasonableness e sl tp).severity =
        "CRITICAL"
      ∨ (ExecutionSafetyLayer.check_price_reasonableness e sl tp).severity =
        "WARNING"
      ∨ (ExecutionSafetyLayer.check_price_reasonableness e sl tp).severity =
        "INFO") := by
  unfold ExecutionSafetyLayer.check_price_reasonableness
  dsimp only
  (repeat' split) <;> simp

/-- The margin-availability check always carries its name and a three-valued
severity. -/
theorem check_margin_availability_shape
    (st : ExecutionSafetyLayer.SafetyState) (m : ℚ)
    (ps : List ExecutionSafetyLayer.PosInfo) :
    (ExecutionSafetyLayer.check_margin_availability st m ps).check_name =
      "MARGIN_AVAILABILITY"
  ∧ ((ExecutionSafetyLayer.check_margin_availability st m ps).severity =
        "CRITICAL"
      ∨ (ExecutionSafetyLayer.check_margin_availability st m ps).severity =
        "WARNING"
      ∨ (ExecutionSafetyLayer.check_margin_availability st m ps).severity =
        "INFO") := by
  unfold ExecutionSafetyLayer.check_margin_availability
  dsimp only
  split <;> [simp; split <;> simp]

/-- The liquidation-distance check always carries its name and a
three-valued severity. -/
theorem check_liquidation_distance_shape (e : ℚ) (d : String) (l : ℤ)
    (sl : ℚ) :
    (ExecutionSafetyLayer.check_liquidation_distance e d l sl).check_name =
      "LIQUIDATION_DISTANCE"
  ∧ ((ExecutionSafetyLayer.check_liquidation_distance e d l sl).severity =
        "CRITICAL"
      ∨ (ExecutionSafetyLayer.check_liquidation_distance e d l sl).severity =
        "WARNING"
      ∨ (ExecutionSafetyLayer.check_liquidation_distance e d l sl).severity =
        "INFO") := by
  unfold ExecutionSafetyLayer.check_liquidation_distance
  dsimp only
  (repeat' split) <;> simp

/-- The daily-loss check always carries its name and a three-valued
severity. -/
theorem check_daily_loss_limit_shape (st : ExecutionSafetyLayer.SafetyState)
    (today : ℤ) :
    (ExecutionSafetyLayer.check_daily_loss_limit st today).1.check_name =
      "DAILY_LOSS_LIMIT"
  ∧ ((ExecutionSafetyLayer.check_daily_loss_limit st today).1.severity =
        "CRITICAL"
      ∨ (ExecutionSafetyLayer.check_daily_loss_limit st today).1.severity =
        "WARNING"
      ∨ (ExecutionSafetyLayer.check_daily_loss_limit st today).1.severity =
        "INFO") := by
  unfold ExecutionSafetyLayer.check_daily_loss_limit
  dsimp only
  split <;> simp

/-- The max-drawdown check always carries its name and a three-valued
severity. -/
theorem check_max_drawdown_shape (st : ExecutionSafetyLayer.SafetyState) :
    (ExecutionSafetyLayer.check_max_drawdown st).check_name = "MAX_DRAWDOWN"
  ∧ ((ExecutionSafetyLayer.check_max_drawdown st).severity = "CRITICAL"
      ∨ (ExecutionSafetyLayer.check_max_drawdown st).severity = "WARNING"
      ∨ (ExecutionSafetyLayer.check_max_drawdown st).severity = "INFO") := by
  unfold ExecutionSafetyLayer.check_max_drawdown
  dsimp only
  split <;> simp

/-- The exposure-limit check always carries its name and a three-valued
severity. -/
theorem check_exposure_limit_shape (st : ExecutionSafetyLayer.SafetyState)
    (m : ℚ) (ps : List ExecutionSafetyLayer.PosInfo) :
    (ExecutionSafetyLayer.check_exposure_limit st m ps).check_name =
      "EXPOSURE_LIMIT"
  ∧ ((ExecutionSafetyLayer.check_exposure_limit st m ps).severity =
        "CRITICAL"
      ∨ (ExecutionSafetyLayer.check_exposure_limit st m ps).severity =
        "WARNING"
      ∨ (ExecutionSafetyLayer.check_exposure_limit st m ps).severity =
        "INFO") := by
  unfold ExecutionSafetyLayer.check_exposure_limit
  dsimp only
  split <;> simp

/-- The correlation-conflict check always carries its name and a
three-valued severity. -/
theorem check_correlation_conflict_shape (s : String)
    (ps : List ExecutionSafetyLayer.PosInfo) :
    (ExecutionSafetyLayer.check_correlation_conflict s ps).check_name =
      "CORRELATION_CONFLICT"
  ∧ ((ExecutionSafetyLayer.check_correlation_conflict s ps).severity =
        "CRITICAL"
      ∨ (ExecutionSafetyLayer.check_correlation_conflict s ps).severity =
        "WARNING"
      ∨ (ExecutionSafetyLayer.check_correlation_conflict s ps).severity =
        "INFO") := by
  unfold ExecutionSafetyLayer.check_correlation_conflict
  rcases ExecutionSafetyLayer.groupOf s with _ | g
  · simp
  · dsimp only
    split <;> simp

/-- Approval of a check-result list is equivalent to the absence of a failed
CRITICAL entry. -/
theorem gate_iff (l : List ExecutionSafetyLayer.SafetyCheckResult) :
    ((l.filter (fun r => !r.passed && r.severity == "CRITICAL")).isEmpty =
      true) ↔ ∀ r ∈ l, r.passed = false → r.severity ≠ "CRITICAL" := by
  rw [List.isEmpty_iff, List.filter_eq_nil_iff]
  constructor
  · intro h r hr hp
    have := h r hr
    simp [hp] at this
    exact this
  · intro h r hr
    by_cases hp : r.passed
    · simp [hp]
    · simp only [Bool.not_eq_true] at hp
      have := h r hr hp
      simp [hp, this]

/-- C1: for every candidate trade, validate_trade runs the checks in the
order SymbolValidity, MinimumOrderSize, PriceReasonableness,
MarginAvailability, LiquidationDistance, DailyLossLimit, MaxDrawdown,
ExposureLimit, CorrelationConflict, each yielding a record with passed,
name, severity in the three-valued scale and a message, and the trade is
approved (can_execute = true) if and only if no check fails with severity
CRITICAL — so failed WARNING checks never abort the trade. -/
theorem validate_trade_order_and_gate
    (st : ExecutionSafetyLayer.SafetyState) (today : ℤ)
    (symbol direction : String) (size entry stop tp : ℚ) (leverage : ℤ)
    (margin : ℚ) (ps : List ExecutionSafetyLayer.PosInfo)
    (h1 : 0 < st.current_equity) (h2 : 0 < st.daily_starting_equity)
    (h3 : 0 < st.peak_equity) :
    ((ExecutionSafetyLayer.validate_trade st today symbol direction size
        entry stop tp leverage margin ps).results.map (·.check_name) =
      ["SYMBOL_VALIDITY", "MINIMUM_ORDER_SIZE", "PRICE_REASONABLENESS",
       "MARGIN_AVAILABILITY", "LIQUIDATION_DISTANCE", "DAILY_LOSS_LIMIT",
       "MAX_DRAWDOWN", "EXPOSURE_LIMIT", "CORRELATION_CONFLICT"])
    ∧ (∀ r ∈ (ExecutionSafetyLayer.validate_trade st today symbol direction
        size entry stop tp leverage margin ps).results,
        r.severity = "CRITICAL" ∨ r.severity = "WARNING" ∨
          r.severity = "INFO")
    ∧ ((ExecutionSafetyLayer.validate_trade st today symbol direction size
        entry stop tp leverage margin ps).can_execute = true ↔
        ∀ r ∈ (ExecutionSafetyLayer.validate_trade st today symbol direction
          size entry stop tp leverage margin ps).results,
          r.passed = false → r.severity ≠ "CRITICAL") := by
  have hres : (ExecutionSafetyLayer.validate_trade st today symbol direction
      size entry stop tp leverage margin ps).results =
      [ExecutionSafetyLayer.check_symbol_validity symbol,
       ExecutionSafetyLayer.check_minimum_order_size symbol size,
       ExecutionSafetyLayer.check_price_reasonableness entry stop tp,
       ExecutionSafetyLayer.check_margin_availability
         { st with total_checks := st.total_checks + 1 } margin ps,
       ExecutionSafetyLayer.check_liquidation_distance entry direction
         leverage stop,
       (ExecutionSafetyLayer.check_daily_loss_limit
         { st with total_checks := st.total_checks + 1 } today).1,
       ExecutionSafetyLayer.check_max_drawdown
         (ExecutionSafetyLayer.check_daily_loss_limit
           { st with total_checks := st.total_checks + 1 } today).2,
       ExecutionSafetyLayer.check_exposure_limit
         (ExecutionSafetyLayer.check_daily_loss_limit
           { st with total_checks := st.total_checks + 1 } today).2 margin ps,
       ExecutionSafetyLayer.check_correlation_conflict symbol ps] := rfl
  have hcan : (ExecutionSafetyLayer.validate_trade st today symbol direction
      size entry stop tp leverage margin ps).can_execute =
      ((ExecutionSafetyLayer.validate_trade st today symbol direction size
        entry stop tp leverage margin ps).results.filter
          (fun r => !r.passed && r.severity == "CRITICAL")).isEmpty := rfl
  refine ⟨?_, ?_, ?_⟩
  · rw [hres]
    simp [List.map_cons, (check_symbol_validity_shape symbol).1,
      (check_minimum_order_size_shape symbol size).1,
      (check_price_reasonableness_shape entry stop tp).1,
      (check_margin_availability_shape _ margin ps).1,
      (check_liquidation_distance_shape entry direction leverage stop).1,
      (check_daily_loss_limit_shape _ today).1,
      (check_max_drawdown_shape _).1,
      (check_exposure_limit_shape _ margin ps).1,
      (check_correlation_conflict_shape symbol ps).1]
  · intro r hr
    rw [hres] at hr
    simp only [List.mem_cons, List.not_mem_nil, or_false] at hr
    rcases hr with h|h|h|h|h|h|h|h|h <;> subst h
    · exact (check_symbol_validity_shape symbol).2
    · exact (check_minimum_order_size_shape symbol size).2
    · exact (check_price_reasonableness_shape entry stop tp).2
    · exact (check_margin_availability_shape _ margin ps).2
    · exact (check_liquidation_distance_shape entry direction leverage stop).2
    · exact (check_daily_loss_limit_shape _ today).2
    · exact (check_max_drawdown_shape _).2
    · exact (check_exposure_limit_shape _ margin ps).2
    · exact (check_correlation_conflict_shape symbol ps).2
  · rw [hcan, gate_iff]

/-- C1 witness: the hypotheses hold and the theorem applies at a concrete
equity state and candidate trade. -/
theorem validate_trade_order_and_gate_wit :
    (0 : ℚ) < (10000 : ℚ) ∧
    (((ExecutionSafetyLayer.validate_trade
        ⟨10000, 10000, 10000, 0, 0, 0, []⟩ 0 "cmt_btcusdt" "LONG" 1 100
        (199/2) 101 20 5 []).results.map (·.check_name) =
      ["SYMBOL_VALIDITY", "MINIMUM_ORDER_SIZE", "PRICE_REASONABLENESS",
       "MARGIN_AVAILABILITY", "LIQUIDATION_DISTANCE", "DAILY_LOSS_LIMIT",
       "MAX_DRAWDOWN", "EXPOSURE_LIMIT", "CORRELATION_CONFLICT"])
    ∧ (∀ r ∈ (ExecutionSafetyLayer.validate_trade
        ⟨10000, 10000, 10000, 0, 0, 0, []⟩ 0 "cmt_btcusdt" "LONG" 1 100
        (199/2) 101 20 5 []).results,
        r.severity = "CRITICAL" ∨ r.severity = "WARNING" ∨
          r.severity = "INFO")
    ∧ ((ExecutionSafetyLayer.validate_trade
        ⟨10000, 10000, 10000, 0, 0, 0, []⟩ 0 "cmt_btcusdt" "LONG" 1 100
        (199/2) 101 20 5 []).can_execute = true ↔
        ∀ r ∈ (ExecutionSafetyLayer.validate_trade
          ⟨10000, 10000, 10000, 0, 0, 0, []⟩ 0 "cmt_btcusdt" "LONG" 1 100
          (199/2) 101 20 5 []).results,
          r.passed = false → r.severity ≠ "CRITICAL")) :=
  ⟨by norm_num,
    validate_trade_order_and_gate ⟨10000, 10000, 10000, 0, 0, 0, []⟩ 0
      "cmt_btcusdt" "LONG" 1 100 (199/2) 101 20 5 [] (by norm_num)
      (by norm_num) (by norm_num)⟩

/-- C4 (counterexample): a candidate trade on cmt_ethusdt while cmt_btcusdt
(same correlation group A) is open passes validate_trade with can_execute
true — the correlation conflict only produces a failed WARNING result — so
the safety-layer (Sentinel) path does not prohibit a same-group position. -/
theorem correlation_conflict_not_blocking :
    (ExecutionSafetyLayer.validate_trade ⟨10000, 10000, 10000, 0, 0, 0, []⟩ 0
      "cmt_ethusdt" "LONG" 1 100 (199/2) 101 20 5
      [⟨"cmt_btcusdt", 10⟩]).can_execute = true
  ∧ (⟨false, "CORRELATION_CONFLICT", "Correlation conflict", "WARNING"⟩ :
      ExecutionSafetyLayer.SafetyCheckResult) ∈
    (ExecutionSafetyLayer.validate_trade ⟨10000, 10000, 10000, 0, 0, 0, []⟩ 0
      "cmt_ethusdt" "LONG" 1 100 (199/2) 101 20 5
      [⟨"cmt_btcusdt", 10⟩]).results := by
  have e1 : ExecutionSafetyLayer.check_symbol_validity "cmt_ethusdt" =
      ⟨true, "SYMBOL_VALIDITY", "Symbol valid", "INFO"⟩ := by rfl
  have e2 : ExecutionSafetyLayer.check_minimum_order_size "cmt_ethusdt" 1 =
      ⟨true, "MINIMUM_ORDER_SIZE", "Order size OK", "INFO"⟩ := by
    simp [ExecutionSafetyLayer.check_minimum_order_size,
      ExecutionSafetyLayer.MIN_ORDER_SIZES, List.lookup]
    norm_num
  have e3 : ExecutionSafetyLayer.check_price_reasonableness 100 (199/2) 101 =
      ⟨true, "PRICE_REASONABLENESS", "Prices OK", "INFO"⟩ := by
    norm_num [ExecutionSafetyLayer.check_price_reasonableness, abs]
  have e4 : ExecutionSafetyLayer.check_margin_availability
      ⟨10000, 10000, 10000, 0, 1, 0, []⟩ 5 [⟨"cmt_btcusdt", 10⟩] =
      ⟨true, "MARGIN_AVAILABILITY", "Margin OK", "INFO"⟩ := by
    norm_num [ExecutionSafetyLayer.check_margin_availability]
  have e5 : ExecutionSafetyLayer.check_liquidation_distance 100 "LONG" 20
      (199/2) =
      ⟨true, "LIQUIDATION_DISTANCE", "Liquidation distance OK", "INFO"⟩ := by
    norm_num [ExecutionSafetyLayer.check_liquidation_distance,
      ExecutionSafetyLayer.MIN_LIQUIDATION_DISTANCE_PCT]
  have e6 : ExecutionSafetyLayer.check_daily_loss_limit
      ⟨10000, 10000, 10000, 0, 1, 0, []⟩ 0 =
      (⟨true, "DAILY_LOSS_LIMIT", "Daily loss OK", "INFO"⟩,
        ⟨10000, 10000, 10000, 0, 1, 0, []⟩) := by
    norm_num [ExecutionSafetyLayer.check_daily_loss_limit,
      ExecutionSafetyLayer.reset_daily_tracking,
      ExecutionSafetyLayer.MAX_DAILY_LOSS_PCT]
  have e7 : ExecutionSafetyLayer.check_max_drawdown
      ⟨10000, 10000, 10000, 0, 1, 0, []⟩ =
      ⟨true, "MAX_DRAWDOWN", "Drawdown OK", "INFO"⟩ := by
    norm_num [ExecutionSafetyLayer.check_max_drawdown,
      ExecutionSafetyLayer.MAX_DRAWDOWN_PCT]
  have e8 : ExecutionSafetyLayer.check_exposure_limit
      ⟨10000, 10000, 10000, 0, 1, 0, []⟩ 5 [⟨"cmt_btcusdt", 10⟩] =
      ⟨true, "EXPOSURE_LIMIT", "Exposure OK", "INFO"⟩ := by
    norm_num [ExecutionSafetyLayer.check_exposure_limit,
      ExecutionSafetyLayer.MAX_EXPOSURE_PCT]
  have e9 : ExecutionSafetyLayer.check_correlation_conflict "cmt_ethusdt"
      [⟨"cmt_btcusdt", 10⟩] =
      ⟨false, "CORRELATION_CONFLICT", "Correlation conflict", "WARNING"⟩ := by
    norm_num [ExecutionSafetyLayer.check_correlation_conflict,
      ExecutionSafetyLayer.groupOf, ExecutionSafetyLayer.CORRELATION_GROUPS]
    decide
  have hres : (ExecutionSafetyLayer.validate_trade
      ⟨10000, 10000, 10000, 0, 0, 0, []⟩ 0 "cmt_ethusdt" "LONG" 1 100
      (199/2) 101 20 5 [⟨"cmt_btcusdt", 10⟩]).results =
      [ExecutionSafetyLayer.check_symbol_validity "cmt_ethusdt",
       ExecutionSafetyLayer.check_minimum_order_size "cmt_ethusdt" 1,
       ExecutionSafetyLayer.check_price_reasonableness 100 (199/2) 101,
       ExecutionSafetyLayer.check_margin_availability
         ⟨10000, 10000, 10000, 0, 1, 0, []⟩ 5 [⟨"cmt_btcusdt", 10⟩],
       ExecutionSafetyLayer.check_liquidation_distance 100 "LONG" 20 (199/2),
       (ExecutionSafetyLayer.check_daily_loss_limit
         ⟨10000, 10000, 10000, 0, 1, 0, []⟩ 0).1,
       ExecutionSafetyLayer.check_max_drawdown
         (ExecutionSafetyLayer.check_daily_loss_limit
           ⟨10000, 10000, 10000, 0, 1, 0, []⟩ 0).2,
       ExecutionSafetyLayer.check_exposure_limit
         (ExecutionSafetyLayer.check_daily_loss_limit
           ⟨10000, 10000, 10000, 0, 1, 0, []⟩ 0).2 5 [⟨"cmt_btcusdt", 10⟩],
       ExecutionSafetyLayer.check_correlation_conflict "cmt_ethusdt"
         [⟨"cmt_btcusdt", 10⟩]] := rfl
  have hcan : (ExecutionSafetyLayer.validate_trade
      ⟨10000, 10000, 10000, 0, 0, 0, []⟩ 0 "cmt_ethusdt" "LONG" 1 100
      (199/2) 101 20 5 [⟨"cmt_btcusdt", 10⟩]).can_execute =
      ((ExecutionSafetyLayer.validate_trade
        ⟨10000, 10000, 10000, 0, 0, 0, []⟩ 0 "cmt_ethusdt" "LONG" 1 100
        (199/2) 101 20 5 [⟨"cmt_btcusdt", 10⟩]).results.filter
          (fun r => !r.passed && r.severity == "CRITICAL")).isEmpty := rfl
  rw [e6] at hres
  constructor
  · rw [hcan, hres, e1, e2, e3, e4, e5, e7, e8, e9]
    rfl
  · rw [hres, e9]
    simp

/-- C4 (amended): the correlation-group exclusion holds on the risk-manager
(Institutional) path — can_open_position refuses whenever an open position
shares the candidate's correlation group — while on the safety-layer
(Sentinel) path a same-group conflict only yields a failed WARNING check,
which does not veto the trade (approval counts only CRITICAL failures). -/
theorem correlation_gate_by_path :
    (∀ (st : RiskManager.RiskState) (symbol g : String)
       (syms : List String) (sym2 : String),
       (g, syms) ∈ RiskManager.CORRELATION_GROUPS →
       RiskManager.get_correlation_group symbol = some g →
       sym2 ∈ syms → sym2 ≠ symbol →
       (st.positions.lookup sym2).isSome = true →
       (RiskManager.can_open_position st symbol).1 = false)
  ∧ (∀ (symbol g : String) (ps : List ExecutionSafetyLayer.PosInfo)
       (p : ExecutionSafetyLayer.PosInfo),
       ExecutionSafetyLayer.groupOf symbol = some g →
       p ∈ ps →
       (ExecutionSafetyLayer.CORRELATION_GROUPS.any (fun gp =>
         gp.1 == g && gp.2.contains p.symbol && p.symbol != symbol)) = true →
       ExecutionSafetyLayer.check_correlation_conflict symbol ps =
         ⟨false, "CORRELATION_CONFLICT", "Correlation conflict",
           "WARNING"⟩) := by
  constructor
  · intro st symbol g syms sym2 hgp hgrp hmem hne hopen
    unfold RiskManager.can_open_position
    dsimp only
    rw [hgrp]
    have hmemr3 : RiskManager.Reason.corrGroup g sym2 ∈
        RiskManager.CORRELATION_GROUPS.flatMap (fun gp =>
          if gp.1 = g then
            (gp.2.filter (fun sym =>
              (st.positions.lookup sym).isSome && sym != symbol)).map
              (fun sym => RiskManager.Reason.corrGroup gp.1 sym)
          else []) := by
      refine List.mem_flatMap.mpr ⟨(g, syms), hgp, ?_⟩
      have hfst : ((g, syms).1 = g) := rfl
      rw [if_pos hfst]
      refine List.mem_map.mpr ⟨sym2, List.mem_filter.mpr ⟨hmem, ?_⟩, rfl⟩
      simp [hopen, hne]
    have hmemR : RiskManager.Reason.corrGroup g sym2 ∈
        ((if (st.current_equity - st.daily_starting_equity) /
              st.daily_starting_equity < -RiskManager.MAX_DAILY_LOSS then
            [RiskManager.Reason.dailyLossLimit] else []) ++
          (if (st.peak_equity - st.current_equity) / st.peak_equity >
              RiskManager.MAX_DRAWDOWN then
            [RiskManager.Reason.maxDrawdownHit] else []) ++
          RiskManager.CORRELATION_GROUPS.flatMap (fun gp =>
            if gp.1 = g then
              (gp.2.filter (fun sym =>
                (st.positions.lookup sym).isSome && sym != symbol)).map
                (fun sym => RiskManager.Reason.corrGroup gp.1 sym)
            else []) ++
          (if st.positions.length ≥ 1 then
            [RiskManager.Reason.maxPositions] else []) ++
          (if (st.positions.map (·.2.margin_used)).sum / st.current_equity ≥
              RiskManager.MAX_EXPOSURE then
            [RiskManager.Reason.maxExposure] else [])) :=
      List.mem_append_left _ (List.mem_append_left _
        (List.mem_append_right _ hmemr3))
    exact Bool.eq_false_iff.mpr fun hTrue =>
      List.ne_nil_of_mem hmemR (List.isEmpty_iff.mp hTrue)
  · intro symbol g ps p hg hp hcond
    unfold ExecutionSafetyLayer.check_correlation_conflict
    rw [hg]
    dsimp only
    have hany : (ps.any (fun q =>
        ExecutionSafetyLayer.CORRELATION_GROUPS.any (fun gp =>
          gp.1 == g && gp.2.contains q.symbol && q.symbol != symbol))) =
        true := List.any_eq_true.mpr ⟨p, hp, hcond⟩
    rw [if_pos hany]

/-- C4 witness: the amended theorem applies at a concrete open cmt_btcusdt
position and candidate cmt_ethusdt on both paths. -/
theorem correlation_gate_by_path_wit :
    (RiskManager.can_open_position
      ⟨10000, 10000, 10000, 10000, 0,
        [("cmt_btcusdt",
          ⟨"LONG", 100, 1, 98, 104, none, 5, 1, 0, 100, "LONG"⟩)],
        0, 0, []⟩ "cmt_ethusdt").1 = false
  ∧ ExecutionSafetyLayer.check_correlation_conflict "cmt_ethusdt"
      [⟨"cmt_btcusdt", 10⟩] =
      ⟨false, "CORRELATION_CONFLICT", "Correlation conflict", "WARNING"⟩ :=
  ⟨correlation_gate_by_path.1 _ "cmt_ethusdt" "A"
      ["cmt_btcusdt", "cmt_ethusdt"] "cmt_btcusdt" (by decide) (by rfl)
      (by decide) (by decide) (by rfl),
    correlation_gate_by_path.2 "cmt_ethusdt" "A" [⟨"cmt_btcusdt", 10⟩]
      ⟨"cmt_btcusdt", 10⟩ (by rfl) (by decide) (by rfl)⟩

/-- C5: once the daily PnL ratio is strictly below -0.03, the risk manager
refuses every new position (can_open_position false, open_position false
with the position map untouched) and the safety layer fails DailyLossLimit
with CRITICAL severity while the date has not rolled over; existing
positions can still be updated; and on the first check of a later day the
reset restores daily_starting_equity to current equity and the check passes
again. -/
theorem daily_loss_kill_switch
    (st : RiskManager.RiskState) (sst : ExecutionSafetyLayer.SafetyState)
    (symbol direction psym : String)
    (entry size stop tp margin atr now cp catr cnow : ℚ)
    (ppos : RiskManager.RPos) (today today2 : ℤ)
    (hs : 0 < st.daily_starting_equity)
    (hkill : (st.current_equity - st.daily_starting_equity) /
      st.daily_starting_equity < -(3/100))
    (hss : 0 < sst.daily_starting_equity)
    (hscur : 0 < sst.current_equity)
    (hskill : (sst.current_equity - sst.daily_starting_equity) /
      sst.daily_starting_equity < -(3/100))
    (hnoroll : today ≤ sst.last_reset_date)
    (hroll : sst.last_reset_date < today2)
    (hpos : st.positions.lookup psym = some ppos) :
    (RiskManager.can_open_position st symbol).1 = false
  ∧ (RiskManager.open_position st symbol direction entry size stop tp margin
      atr now).1 = false
  ∧ (RiskManager.open_position st symbol direction entry size stop tp margin
      atr now).2.positions = st.positions
  ∧ (ExecutionSafetyLayer.check_daily_loss_limit sst today).1.passed = false
  ∧ (ExecutionSafetyLayer.check_daily_loss_limit sst today).1.severity =
      "CRITICAL"
  ∧ (RiskManager.update_position st psym cp catr cnow).isSome = true
  ∧ (ExecutionSafetyLayer.reset_daily_tracking sst
      today2).daily_starting_equity = sst.current_equity
  ∧ (ExecutionSafetyLayer.check_daily_loss_limit sst today2).1.passed =
      true := by
  have hcan : (RiskManager.can_open_position st symbol).1 = false := by
    unfold RiskManager.can_open_position
    dsimp only
    rw [if_pos (show (st.current_equity - st.daily_starting_equity) /
      st.daily_starting_equity < -RiskManager.MAX_DAILY_LOSS from hkill)]
    rfl
  have hopen : (RiskManager.open_position st symbol direction entry size stop
      tp margin atr now) = (false,
        { st with risk_alerts := st.risk_alerts ++
          (RiskManager.can_open_position st symbol).2 }) := by
    unfold RiskManager.open_position
    dsimp only
    rw [hcan]
    simp
  have hnr : ExecutionSafetyLayer.reset_daily_tracking sst today = sst := by
    unfold ExecutionSafetyLayer.reset_daily_tracking
    rw [if_neg (by omega)]
  have hfail : (ExecutionSafetyLayer.check_daily_loss_limit sst today).1 =
      ⟨false, "DAILY_LOSS_LIMIT", "Daily loss limit exceeded",
        "CRITICAL"⟩ := by
    unfold ExecutionSafetyLayer.check_daily_loss_limit
    rw [hnr]
    dsimp only
    rw [if_pos (show (sst.current_equity - sst.daily_starting_equity) /
      sst.daily_starting_equity < -ExecutionSafetyLayer.MAX_DAILY_LOSS_PCT
      from hskill)]
  have hr : ExecutionSafetyLayer.reset_daily_tracking sst today2 =
      { sst with daily_starting_equity := sst.current_equity,
                 last_reset_date := today2 } := by
    unfold ExecutionSafetyLayer.reset_daily_tracking
    rw [if_pos (by omega)]
  have hpass : (ExecutionSafetyLayer.check_daily_loss_limit sst today2).1 =
      ⟨true, "DAILY_LOSS_LIMIT", "Daily loss OK", "INFO"⟩ := by
    unfold ExecutionSafetyLayer.check_daily_loss_limit
    rw [hr]
    dsimp only
    rw [if_neg (by
      simp only [sub_self, zero_div]
      norm_num [ExecutionSafetyLayer.MAX_DAILY_LOSS_PCT])]
  have hup : (RiskManager.update_position st psym cp catr cnow).isSome =
      true := by
    unfold RiskManager.update_position
    rw [hpos]
    rfl
  refine ⟨hcan, by rw [hopen], by rw [hopen], by rw [hfail], by rw [hfail],
    hup, by rw [hr], by rw [hpass]⟩

/-- C5 witness: the kill switch fires at a concrete portfolio 3.1 percent
down on the day, and the reset on the next day clears it. -/
theorem daily_loss_kill_switch_wit :
    ((0 : ℚ) < 10000 ∧
      ((9690 : ℚ) - 10000) / 10000 < -(3/100) ∧ (5 : ℤ) ≤ 5 ∧ (5 : ℤ) < 6)
  ∧ ((RiskManager.can_open_position
      ⟨10000, 10000, 9690, 10000, 0,
        [("cmt_btcusdt",
          ⟨"LONG", 100, 1, 98, 104, none, 5, 1, 0, 100, "LONG"⟩)],
        0, 0, []⟩ "cmt_ethusdt").1 = false
    ∧ (RiskManager.open_position
      ⟨10000, 10000, 9690, 10000, 0,
        [("cmt_btcusdt",
          ⟨"LONG", 100, 1, 98, 104, none, 5, 1, 0, 100, "LONG"⟩)],
        0, 0, []⟩ "cmt_ethusdt" "LONG" 100 1 98 104 5 1 0).1 = false
    ∧ (RiskManager.open_position
      ⟨10000, 10000, 9690, 10000, 0,
        [("cmt_btcusdt",
          ⟨"LONG", 100, 1, 98, 104, none, 5, 1, 0, 100, "LONG"⟩)],
        0, 0, []⟩ "cmt_ethusdt" "LONG" 100 1 98 104 5 1 0).2.positions =
      [("cmt_btcusdt",
        ⟨"LONG", 100, 1, 98, 104, none, 5, 1, 0, 100, "LONG"⟩)]
    ∧ (ExecutionSafetyLayer.check_daily_loss_limit
        ⟨9690, 10000, 10000, 5, 0, 0, []⟩ 5).1.passed = false
    ∧ (ExecutionSafetyLayer.check_daily_loss_limit
        ⟨9690, 10000, 10000, 5, 0, 0, []⟩ 5).1.severity = "CRITICAL"
    ∧ (RiskManager.update_position
      ⟨10000, 10000, 9690, 10000, 0,
        [("cmt_btcusdt",
          ⟨"LONG", 100, 1, 98, 104, none, 5, 1, 0, 100, "LONG"⟩)],
        0, 0, []⟩ "cmt_btcusdt" 101 1 5).isSome = true
    ∧ (ExecutionSafetyLayer.reset_daily_tracking
        ⟨9690, 10000, 10000, 5, 0, 0, []⟩ 6).daily_starting_equity = 9690
    ∧ (ExecutionSafetyLayer.check_daily_loss_limit
        ⟨9690, 10000, 10000, 5, 0, 0, []⟩ 6).1.passed = true) :=
  ⟨⟨by norm_num, by norm_num, by norm_num, by norm_num⟩,
    daily_loss_kill_switch
      ⟨10000, 10000, 9690, 10000, 0,
        [("cmt_btcusdt",
          ⟨"LONG", 100, 1, 98, 104, none, 5, 1, 0, 100, "LONG"⟩)],
        0, 0, []⟩
      ⟨9690, 10000, 10000, 5, 0, 0, []⟩ "cmt_ethusdt" "LONG" "cmt_btcusdt"
      100 1 98 104 5 1 0 101 1 5
      ⟨"LONG", 100, 1, 98, 104, none, 5, 1, 0, 100, "LONG"⟩ 5 6
      (by norm_num) (by norm_num) (by norm_num) (by norm_num) (by norm_num)
      (by norm_num) (by norm_num) (by rfl)⟩

/-- C2 (counterexample): on the risk-manager path a Long at entry 100 with
stop 98 (R = 2) and ATR 1 gets its stop moved up to 100 by update_position
at price 100.5, although the unrealized profit 0.5 is below 1 R — the
trailing stop there activates on any profit and is clamped to the entry,
contradicting the claimed 1-R activation threshold. -/
theorem trailing_activation_below_one_r :
    ((RiskManager.update_position
      ⟨10000, 10000, 10000, 10000, 0,
        [("cmt_btcusdt",
          ⟨"LONG", 100, 1, 98, 104, none, 5, 1, 0, 100, "LONG"⟩)],
        0, 0, []⟩ "cmt_btcusdt" (201/2) 1 10).map
        (fun out => out.2.stop_loss)) = some 100
  ∧ ((201 : ℚ)/2 - 100 < |(100 : ℚ) - 98|) := by
  constructor
  · simp [RiskManager.update_position, RiskManager.calculate_trailing_stop,
      List.lookup]
    norm_num
  · norm_num [abs]

/-- C2 (amended): trailing-stop behaviour as the code implements it.  In
the unified position manager the working stop never moves in the losing
direction, nothing changes while the profit is below one R measured against
the current working stop, and on an activated Long (Short) update the stop
becomes highestPrice - 2 ATR (lowestPrice + 2 ATR) whenever that level
beats the current stop.  In the risk manager the trailing stop activates on
any positive profit and equals the extreme shifted by 2 ATR clamped at the
entry price, and update_position likewise never moves the stop in the
losing direction. -/
theorem trailing_stop_amended :
    (∀ pos : UnifiedPositionManager.PMPos, pos.direction = "LONG" →
      pos.stop_loss ≤ (UnifiedPositionManager.updateTrailingStop
        pos).stop_loss)
  ∧ (∀ pos : UnifiedPositionManager.PMPos, pos.direction ≠ "LONG" →
      (UnifiedPositionManager.updateTrailingStop pos).stop_loss ≤
        pos.stop_loss)
  ∧ (∀ pos : UnifiedPositionManager.PMPos,
      (if pos.direction = "LONG" then
        pos.current_price - pos.entry_price
      else pos.entry_price - pos.current_price) <
        |pos.entry_price - pos.stop_loss| →
      UnifiedPositionManager.updateTrailingStop pos = pos)
  ∧ (∀ pos : UnifiedPositionManager.PMPos, pos.direction = "LONG" →
      pos.entry_price ≠ pos.stop_loss →
      |pos.entry_price - pos.stop_loss| ≤
        pos.current_price - pos.entry_price →
      (∀ t, pos.trailing_stop = some t → t ≤ pos.stop_loss) →
      pos.stop_loss < pos.highest_price - 2 * pos.atr →
      (UnifiedPositionManager.updateTrailingStop pos).stop_loss =
        pos.highest_price - 2 * pos.atr)
  ∧ (∀ pos : UnifiedPositionManager.PMPos, pos.direction ≠ "LONG" →
      pos.entry_price ≠ pos.stop_loss →
      |pos.entry_price - pos.stop_loss| ≤
        pos.entry_price - pos.current_price →
      (∀ t, pos.trailing_stop = some t → pos.stop_loss ≤ t) →
      pos.lowest_price + 2 * pos.atr < pos.stop_loss →
      (UnifiedPositionManager.updateTrailingStop pos).stop_loss =
        pos.lowest_price + 2 * pos.atr)
  ∧ (∀ e c a x : ℚ, RiskManager.calculate_trailing_stop e c a "LONG"
      (some x) =
      if c ≤ e then none else some (max ((if x = 0 then c else x) - 2*a) e))
  ∧ (∀ e c a x : ℚ, RiskManager.calculate_trailing_stop e c a "SHORT"
      (some x) =
      if e ≤ c then none else some (min ((if x = 0 then c else x) + 2*a) e))
  ∧ (∀ (st : RiskManager.RiskState) (sym : String) (cp a n : ℚ)
      (pos : RiskManager.RPos)
      (out : RiskManager.RiskState × RiskManager.PositionRisk),
      st.positions.lookup sym = some pos → pos.direction = "LONG" →
      RiskManager.update_position st sym cp a n = some out →
      pos.stop_loss ≤ out.2.stop_loss)
  ∧ (∀ (st : RiskManager.RiskState) (sym : String) (cp a n : ℚ)
      (pos : RiskManager.RPos)
      (out : RiskManager.RiskState × RiskManager.PositionRisk),
      st.positions.lookup sym = some pos → pos.direction = "SHORT" →
      RiskManager.update_position st sym cp a n = some out →
      out.2.stop_loss ≤ pos.stop_loss) := by
  refine ⟨?_, ?_, ?_, ?_, ?_, ?_, ?_, ?_, ?_⟩
  · intro pos h
    unfold UnifiedPositionManager.updateTrailingStop
    dsimp only
    simp only [h, if_true, eq_self_iff_true, if_pos]
    split_ifs <;> simp_all <;> linarith
  · intro pos h
    unfold UnifiedPositionManager.updateTrailingStop
    dsimp only
    simp only [if_neg h]
    split_ifs <;> simp_all <;> linarith
  · intro pos h
    unfold UnifiedPositionManager.updateTrailingStop
    dsimp only
    by_cases h0 : |pos.entry_price - pos.stop_loss| = 0
    · rw [if_pos h0]
    · rw [if_neg h0]
      have h0' : 0 < |pos.entry_price - pos.stop_loss| :=
        lt_of_le_of_ne (abs_nonneg _) (Ne.symm h0)
      by_cases hd : pos.direction = "LONG"
      · rw [if_pos hd] at h ⊢
        by_cases hp : pos.current_price - pos.entry_price ≤ 0
        · rw [if_pos hp]
        · rw [if_neg hp]
          rw [if_pos ?_]
          unfold UnifiedPositionManager.TRAILING_STOP_ACTIVATION_R
          exact (div_lt_one h0').mpr h
      · rw [if_neg hd] at h ⊢
        by_cases hp : pos.entry_price - pos.current_price ≤ 0
        · rw [if_pos hp]
        · rw [if_neg hp]
          rw [if_pos ?_]
          unfold UnifiedPositionManager.TRAILING_STOP_ACTIVATION_R
          exact (div_lt_one h0').mpr h
  · intro pos hd hne hprof hts hbet
    unfold UnifiedPositionManager.updateTrailingStop
      UnifiedPositionManager.TRAILING_STOP_ACTIVATION_R
      UnifiedPositionManager.TRAILING_STOP_ATR_MULTIPLIER
    dsimp only
    have h0 : |pos.entry_price - pos.stop_loss| ≠ 0 := by
      rw [abs_ne_zero, sub_ne_zero]
      exact hne
    have h0' : 0 < |pos.entry_price - pos.stop_loss| :=
      lt_of_le_of_ne (abs_nonneg _) (Ne.symm h0)
    rw [if_neg h0]
    simp only [hd, eq_self_iff_true, if_true]
    have hp : ¬ (pos.current_price - pos.entry_price ≤ 0) := by
      have := lt_of_lt_of_le h0' hprof
      linarith
    rw [if_neg hp]
    rw [if_neg (not_lt.mpr ((one_le_div h0').mpr hprof))]
    rcases hts0 : pos.trailing_stop with _ | t
    · simp only [hts0, Option.elim, if_true]
      rw [if_pos hbet]
    · simp only [hts0, Option.elim]
      rw [if_pos (by
        have ht := hts t hts0
        exact decide_eq_true (lt_of_le_of_lt ht hbet))]
      rw [if_pos hbet]
  · intro pos hd hne hprof hts hbet
    unfold UnifiedPositionManager.updateTrailingStop
      UnifiedPositionManager.TRAILING_STOP_ACTIVATION_R
      UnifiedPositionManager.TRAILING_STOP_ATR_MULTIPLIER
    dsimp only
    have h0 : |pos.entry_price - pos.stop_loss| ≠ 0 := by
      rw [abs_ne_zero, sub_ne_zero]
      exact hne
    have h0' : 0 < |pos.entry_price - pos.stop_loss| :=
      lt_of_le_of_ne (abs_nonneg _) (Ne.symm h0)
    rw [if_neg h0]
    simp only [if_neg hd]
    have hp : ¬ (pos.entry_price - pos.current_price ≤ 0) := by
      have := lt_of_lt_of_le h0' hprof
      linarith
    rw [if_neg hp]
    rw [if_neg (not_lt.mpr ((one_le_div h0').mpr hprof))]
    rcases hts0 : pos.trailing_stop with _ | t
    · simp only [hts0, Option.elim, if_true]
      rw [if_pos hbet]
    · simp only [hts0, Option.elim]
      rw [if_pos (by
        have ht := hts t hts0
        exact decide_eq_true (lt_of_lt_of_le hbet ht))]
      rw [if_pos hbet]
  · intro e c a x
    unfold RiskManager.calculate_trailing_stop
    dsimp only
    rw [if_pos rfl]
  · intro e c a x
    unfold RiskManager.calculate_trailing_stop
    dsimp only
    rw [if_neg (by decide : ¬ ("SHORT" = "LONG"))]
  · intro st sym cp a n pos out hlook hd hout
    unfold RiskManager.update_position at hout
    rw [hlook] at hout
    dsimp only at hout
    replace hout := Option.some.inj hout
    subst hout
    dsimp only
    rcases hts0 : RiskManager.calculate_trailing_stop pos.entry_price cp a
      pos.direction (some (if pos.direction = "LONG" then
        pos.highest_price ⊔ cp else pos.highest_price ⊓ cp)) with _ | t
    · simp only [hts0]
      exact le_rfl
    · simp only [hts0]
      split_ifs with h1 h2 <;> simp_all <;> linarith
  · intro st sym cp a n pos out hlook hd hout
    unfold RiskManager.update_position at hout
    rw [hlook] at hout
    dsimp only at hout
    replace hout := Option.some.inj hout
    subst hout
    dsimp only
    rcases hts0 : RiskManager.calculate_trailing_stop pos.entry_price cp a
      pos.direction (some (if pos.direction = "LONG" then
        pos.highest_price ⊔ cp else pos.highest_price ⊓ cp)) with _ | t
    · simp only [hts0]
      exact le_rfl
    · simp only [hts0]
      split_ifs with h1 h2 <;> simp_all <;> linarith

/-- C2 witness: the amended theorem applies to a concrete Long at entry
100, stop 98, ATR 1 with the price at 103 (profit 3 above one R = 2): the
stop is promoted to 101 = highest - 2 ATR, and the risk-manager trailing
formula instantiates. -/
theorem trailing_stop_amended_wit :
    ((100 : ℚ) ≠ 98 ∧ |(100 : ℚ) - 98| ≤ 103 - 100 ∧
      (98 : ℚ) < 103 - 2 * 1)
  ∧ (UnifiedPositionManager.updateTrailingStop
      ⟨"cmt_btcusdt", "buy", "LONG", 1, 100, 103, 98, 104, none, 5, 0,
        some "o1", "SENTINEL", 103, 98, 1⟩).stop_loss = 103 - 2 * 1
  ∧ RiskManager.calculate_trailing_stop 100 103 1 "LONG" (some 103) =
      (if (103 : ℚ) ≤ 100 then none
       else some (max ((if (103 : ℚ) = 0 then 103 else 103) - 2 * 1)
         100)) :=
  ⟨⟨by norm_num, by norm_num [abs], by norm_num⟩,
   trailing_stop_amended.2.2.2.1
     ⟨"cmt_btcusdt", "buy", "LONG", 1, 100, 103, 98, 104, none, 5, 0,
       some "o1", "SENTINEL", 103, 98, 1⟩
     rfl (by norm_num) (by norm_num [abs]) (by intro t ht; simp at ht)
     (by norm_num),
   trailing_stop_amended.2.2.2.2.2.1 100 103 1 103⟩

/-- C3 (amended): the heuristic fallback maps its input as the code does:
on a Bullish trend with 30 < RSI < 70 it answers Buy with scaled confidence
only when RSI < 50, Buy 70 on a volume spike, and otherwise Wait 40; the
Bearish branch is symmetric; outside those branches RSI > 75 gives Sell 65,
RSI < 25 gives Buy 65, and everything else gives Wait 30. -/
theorem fallback_decision_map (md : MarketData) :
    (md.trend = "BULLISH" → 30 < md.rsi → md.rsi < 70 → md.rsi < 50 →
      (LlmBrain.get_fallback_decision md).decision = "BUY" ∧
      (LlmBrain.get_fallback_decision md).confidence =
        pyTrunc (min 75 (50 + (50 - md.rsi))))
  ∧ (md.trend = "BULLISH" → 30 < md.rsi → md.rsi < 70 → 50 ≤ md.rsi →
      md.volume_spike = true →
      (LlmBrain.get_fallback_decision md).decision = "BUY" ∧
      (LlmBrain.get_fallback_decision md).confidence = 70)
  ∧ (md.trend = "BULLISH" → 30 < md.rsi → md.rsi < 70 → 50 ≤ md.rsi →
      md.volume_spike = false →
      (LlmBrain.get_fallback_decision md).decision = "WAIT" ∧
      (LlmBrain.get_fallback_decision md).confidence = 40)
  ∧ (md.trend = "BEARISH" → 30 < md.rsi → md.rsi < 70 → 50 < md.rsi →
      (LlmBrain.get_fallback_decision md).decision = "SELL" ∧
      (LlmBrain.get_fallback_decision md).confidence =
        pyTrunc (min 75 (50 + (md.rsi - 50))))
  ∧ (md.trend = "BEARISH" → 30 < md.rsi → md.rsi < 70 → md.rsi ≤ 50 →
      md.volume_spike = true →
      (LlmBrain.get_fallback_decision md).decision = "SELL" ∧
      (LlmBrain.get_fallback_decision md).confidence = 70)
  ∧ (md.trend = "BEARISH" → 30 < md.rsi → md.rsi < 70 → md.rsi ≤ 50 →
      md.volume_spike = false →
      (LlmBrain.get_fallback_decision md).decision = "WAIT" ∧
      (LlmBrain.get_fallback_decision md).confidence = 40)
  ∧ (75 < md.rsi →
      (LlmBrain.get_fallback_decision md).decision = "SELL" ∧
      (LlmBrain.get_fallback_decision md).confidence = 65)
  ∧ (md.rsi < 25 →
      (LlmBrain.get_fallback_decision md).decision = "BUY" ∧
      (LlmBrain.get_fallback_decision md).confidence = 65)
  ∧ (¬ (md.trend = "BULLISH" ∧ md.rsi < 70 ∧ md.rsi > 30) →
      ¬ (md.trend = "BEARISH" ∧ md.rsi > 30 ∧ md.rsi < 70) →
      md.rsi ≤ 75 → 25 ≤ md.rsi →
      (LlmBrain.get_fallback_decision md).decision = "WAIT" ∧
      (LlmBrain.get_fallback_decision md).confidence = 30) := by
  unfold LlmBrain.get_fallback_decision
  dsimp only
  refine ⟨?_, ?_, ?_, ?_, ?_, ?_, ?_, ?_, ?_⟩
  · intro htr h30 h70 h50
    rw [if_pos ⟨htr, h70, h30⟩, if_pos h50]
    exact ⟨rfl, rfl⟩
  · intro htr h30 h70 h50 hsp
    rw [if_pos ⟨htr, h70, h30⟩, if_neg (not_lt.mpr h50), if_pos hsp]
    exact ⟨rfl, by norm_num [pyTrunc]⟩
  · intro htr h30 h70 h50 hsp
    rw [if_pos ⟨htr, h70, h30⟩, if_neg (not_lt.mpr h50),
      if_neg (by simp [hsp])]
    exact ⟨rfl, by norm_num [pyTrunc]⟩
  · intro htr h30 h70 h50
    have hnb : ¬ (md.trend = "BULLISH" ∧ md.rsi < 70 ∧ md.rsi > 30) := by
      rintro ⟨h, -, -⟩
      rw [htr] at h
      exact absurd h (by decide)
    rw [if_neg hnb, if_pos ⟨htr, h30, h70⟩, if_pos h50]
    exact ⟨rfl, rfl⟩
  · intro htr h30 h70 h50 hsp
    have hnb : ¬ (md.trend = "BULLISH" ∧ md.rsi < 70 ∧ md.rsi > 30) := by
      rintro ⟨h, -, -⟩
      rw [htr] at h
      exact absurd h (by decide)
    rw [if_neg hnb, if_pos ⟨htr, h30, h70⟩, if_neg (not_lt.mpr h50),
      if_pos hsp]
    exact ⟨rfl, by norm_num [pyTrunc]⟩
  · intro htr h30 h70 h50 hsp
    have hnb : ¬ (md.trend = "BULLISH" ∧ md.rsi < 70 ∧ md.rsi > 30) := by
      rintro ⟨h, -, -⟩
      rw [htr] at h
      exact absurd h (by decide)
    have hns : ¬ (md.volume_spike = true) := by
      simp [hsp]
    rw [if_neg hnb, if_pos ⟨htr, h30, h70⟩, if_neg (not_lt.mpr h50),
      if_neg hns]
    exact ⟨rfl, by norm_num [pyTrunc]⟩
  · intro h75
    have hnb : ¬ (md.trend = "BULLISH" ∧ md.rsi < 70 ∧ md.rsi > 30) := by
      rintro ⟨-, h, -⟩
      linarith
    have hne : ¬ (md.trend = "BEARISH" ∧ md.rsi > 30 ∧ md.rsi < 70) := by
      rintro ⟨-, -, h⟩
      linarith
    rw [if_neg hnb, if_neg hne, if_pos h75]
    exact ⟨rfl, by norm_num [pyTrunc]⟩
  · intro h25
    have hnb : ¬ (md.trend = "BULLISH" ∧ md.rsi < 70 ∧ md.rsi > 30) := by
      rintro ⟨-, -, h⟩
      linarith
    have hne : ¬ (md.trend = "BEARISH" ∧ md.rsi > 30 ∧ md.rsi < 70) := by
      rintro ⟨-, h, -⟩
      linarith
    rw [if_neg hnb, if_neg hne, if_neg (by linarith), if_pos h25]
    exact ⟨rfl, by norm_num [pyTrunc]⟩
  · intro h1 h2 h75 h25
    rw [if_neg h1, if_neg h2, if_neg (not_lt.mpr h75),
      if_neg (not_lt.mpr h25)]
    exact ⟨rfl, by norm_num [pyTrunc]⟩

/-- C3 witness: the amended mapping applies at a Bullish input with RSI 40
(scaled-confidence Buy) and an overbought input with RSI 80 (Sell 65). -/
theorem fallback_decision_map_wit :
    (("BULLISH" : String) = "BULLISH" ∧ (30 : ℚ) < 40 ∧ (40 : ℚ) < 70 ∧
      (40 : ℚ) < 50 ∧ (75 : ℚ) < 80)
  ∧ ((LlmBrain.get_fallback_decision
      ⟨100, 40, 101, 0, "BULLISH", false⟩).decision = "BUY" ∧
     (LlmBrain.get_fallback_decision
      ⟨100, 40, 101, 0, "BULLISH", false⟩).confidence =
        pyTrunc (min 75 (50 + (50 - (40 : ℚ)))))
  ∧ ((LlmBrain.get_fallback_decision
      ⟨100, 80, 101, 0, "NEUTRAL", false⟩).decision = "SELL" ∧
     (LlmBrain.get_fallback_decision
      ⟨100, 80, 101, 0, "NEUTRAL", false⟩).confidence = 65) :=
  ⟨⟨rfl, by norm_num, by norm_num, by norm_num, by norm_num⟩,
   (fallback_decision_map ⟨100, 40, 101, 0, "BULLISH", false⟩).1 rfl
     (by norm_num) (by norm_num) (by norm_num),
   (fallback_decision_map
     ⟨100, 80, 101, 0, "NEUTRAL", false⟩).2.2.2.2.2.2.1 (by norm_num)⟩

/-- C7 (amended): the rule evaluator binds exactly the ten names rsi,
price, ema_20, volatility, trend, volume_spike, True, False, true, false;
it is the host eval with builtins removed, so arithmetic over the bound
names is accepted; any unknown name (or unparsable text) makes the
predicate false without crashing, and evaluate_strategies simply omits
untriggered or faulted rules, in order, reporting no faults. -/
theorem evaluator_amended :
    (∀ (md : MarketData) (s : String),
      (((StrategyEvaluator.safeDict md).lookup s).isSome = true) ↔
        s ∈ StrategyEvaluator.envNames)
  ∧ (∀ (strats : List StrategyEvaluator.Strategy) (md : MarketData),
      StrategyEvaluator.evaluate_strategies strats md =
        (strats.filter (fun st =>
          StrategyEvaluator.evaluate_logic st.logic md)).map
          StrategyEvaluator.mkTriggered)
  ∧ (∀ (md : MarketData) (s : String), s ∉ StrategyEvaluator.envNames →
      StrategyEvaluator.evaluate_logic (some (.name s)) md = false)
  ∧ (∀ md : MarketData, StrategyEvaluator.evaluate_logic (none) md = false)
  ∧ (∀ md : MarketData, StrategyEvaluator.evaluate_logic
      (some (.cmp .gt (.add (.name "rsi") (.num 1)) (.name "rsi"))) md =
      true) := by
  have hdom : ∀ (md : MarketData) (s : String),
      (((StrategyEvaluator.safeDict md).lookup s).isSome = true) ↔
        s ∈ StrategyEvaluator.envNames := by
    intro md s
    rw [lookup_isSome_iff]
    simp [StrategyEvaluator.safeDict, StrategyEvaluator.envNames]
  refine ⟨hdom, ?_, ?_, ?_, ?_⟩
  · intro strats md
    induction strats with
    | nil => rfl
    | cons s rest ih =>
      by_cases h : StrategyEvaluator.evaluate_logic s.logic md
      · simp [StrategyEvaluator.evaluate_strategies, List.filter_cons, h, ih]
      · simp [StrategyEvaluator.evaluate_strategies, List.filter_cons, h, ih]
  · intro md s hs
    have h2 : ((StrategyEvaluator.safeDict md).lookup s) = none := by
      rcases hl : (StrategyEvaluator.safeDict md).lookup s with _ | v
      · rfl
      · exfalso
        apply hs
        apply (hdom md s).mp
        rw [hl]
        rfl
    simp [StrategyEvaluator.evaluate_logic, StrategyEvaluator.evalExpr, h2]
  · intro md
    rfl
  · intro md
    simp only [StrategyEvaluator.evaluate_logic, StrategyEvaluator.evalExpr,
      StrategyEvaluator.safeDict, List.lookup, StrategyEvaluator.pyAdd,
      StrategyEvaluator.asNum, StrategyEvaluator.evalCmp,
      StrategyEvaluator.cmpQ, StrategyEvaluator.truthy, Option.bind]
    simp [lt_add_one]

/-- C7 witness: an unknown name evaluates to false at a concrete input. -/
theorem evaluator_amended_wit :
    ("undefined_name" ∉ StrategyEvaluator.envNames)
  ∧ StrategyEvaluator.evaluate_logic (some (.name "undefined_name"))
      ⟨100, 50, 100, 0, "NEUTRAL", false⟩ = false :=
  ⟨by decide, evaluator_amended.2.2.1 ⟨100, 50, 100, 0, "NEUTRAL", false⟩
    "undefined_name" (by decide)⟩

/-- A fold whose step appends exactly one element grows the carried list by
the length of the index list. -/
theorem foldl_append_one_len {α β : Type}
    (g : List α × β → Nat → List α × β)
    (hg : ∀ st i, ((g st i).1).length = st.1.length + 1) :
    ∀ (l : List Nat) (st : List α × β),
      ((l.foldl g st).1).length = st.1.length + l.length := by
  intro l
  induction l with
  | nil => intro st; simp
  | cons x xs ih =>
    intro st
    rw [List.foldl_cons, ih (g st x), hg]
    simp
    omega

/-- The synthetic series always has exactly the requested length. -/
theorem generate_mock_candles_len (limit : Nat) (now : ℤ)
    (draws : List (ℚ × ℚ × ℚ)) :
    (WeexClient.generate_mock_candles limit now draws).length = limit := by
  unfold WeexClient.generate_mock_candles
  rw [foldl_append_one_len _ (by intro st i; simp) (List.range limit)
    ([], 98000)]
  simp

/-- C8 (amended): the market-data adapter returns a non-empty upstream list
verbatim — performing no sorting and no deduplication — and on any
data-source failure (error or non-list payload) returns the synthetic
random-walk series of the requested length instead of raising. -/
theorem fetch_candles_amended :
    (∀ (cs : List WeexClient.Candle) (limit : Nat) (now : ℤ)
       (draws : List (ℚ × ℚ × ℚ)), cs ≠ [] →
       WeexClient.fetch_candles (.jsonList cs) limit now draws = cs)
  ∧ (∀ (limit : Nat) (now : ℤ) (draws : List (ℚ × ℚ × ℚ)),
       WeexClient.fetch_candles .netError limit now draws =
         WeexClient.generate_mock_candles limit now draws)
  ∧ (∀ (limit : Nat) (now : ℤ) (draws : List (ℚ × ℚ × ℚ)),
       WeexClient.fetch_candles .jsonOther limit now draws =
         WeexClient.generate_mock_candles limit now draws)
  ∧ (∀ (limit : Nat) (now : ℤ) (draws : List (ℚ × ℚ × ℚ)),
       (WeexClient.generate_mock_candles limit now draws).length =
         limit) := by
  refine ⟨?_, ?_, ?_, ?_⟩
  · intro cs limit now draws h
    unfold WeexClient.fetch_candles
    dsimp only
    rw [if_pos (List.length_pos.mpr h)]
  · intro limit now draws
    rfl
  · intro limit now draws
    rfl
  · intro limit now draws
    exact generate_mock_candles_len limit now draws

/-- C8 witness: a concrete one-candle upstream list passes through. -/
theorem fetch_candles_amended_wit :
    (([⟨1, 1, 1, 1, 1, 1⟩] : List WeexClient.Candle) ≠ [])
  ∧ WeexClient.fetch_candles (.jsonList [⟨1, 1, 1, 1, 1, 1⟩]) 1 0 [] =
      [⟨1, 1, 1, 1, 1, 1⟩] :=
  ⟨List.cons_ne_nil _ _,
   fetch_candles_amended.1 [⟨1, 1, 1, 1, 1, 1⟩] 1 0 []
     (List.cons_ne_nil _ _)⟩

/-- C9 (counterexample): closing a Long absent from the exchange listing
skips the close order and still records the trade locally, but the
persisted record carries no ExternallyClosed annotation — its notes hold
only the original close reason, source, entry and hold time. -/
theorem external_close_no_mark :
    (UnifiedPositionManager.close_position
      [("cmt_btcusdt",
        ⟨"cmt_btcusdt", "buy", "LONG", 1, 100, 95, 98, 104, none, 5, 0,
          some "openid1", "SENTINEL", 100, 95, 1⟩)]
      "cmt_btcusdt" 95 "Stop loss hit" 0 (some ("00000", []))
      none).orderSubmitted = false
  ∧ ((UnifiedPositionManager.close_position
      [("cmt_btcusdt",
        ⟨"cmt_btcusdt", "buy", "LONG", 1, 100, 95, 98, 104, none, 5, 0,
          some "openid1", "SENTINEL", 100, 95, 1⟩)]
      "cmt_btcusdt" 95 "Stop loss hit" 0 (some ("00000", []))
      none).record.map (·.pnl)) = some (-5)
  ∧ (UnifiedPositionManager.close_position
      [("cmt_btcusdt",
        ⟨"cmt_btcusdt", "buy", "LONG", 1, 100, 95, 98, 104, none, 5, 0,
          some "openid1", "SENTINEL", 100, 95, 1⟩)]
      "cmt_btcusdt" 95 "Stop loss hit" 0 (some ("00000", []))
      none).positions = []
  ∧ ((UnifiedPositionManager.close_position
      [("cmt_btcusdt",
        ⟨"cmt_btcusdt", "buy", "LONG", 1, 100, 95, 98, 104, none, 5, 0,
          some "openid1", "SENTINEL", 100, 95, 1⟩)]
      "cmt_btcusdt" 95 "Stop loss hit" 0 (some ("00000", []))
      none).record.map (fun r => strHasMark "ExternallyClosed" r.notes)) =
      some false := by
  have hrec : UnifiedPositionManager.close_position
      [("cmt_btcusdt",
        ⟨"cmt_btcusdt", "buy", "LONG", 1, 100, 95, 98, 104, none, 5, 0,
          some "openid1", "SENTINEL", 100, 95, 1⟩)]
      "cmt_btcusdt" 95 "Stop loss hit" 0 (some ("00000", [])) none =
      ⟨some ⟨"cmt_btcusdt", "buy", 1, 95, some "openid1", "market",
        "filled", (95 - 100) * 1, 0,
        UnifiedPositionManager.closeNotes "Stop loss hit" "SENTINEL" 100
          ((0 - 0)/3600)⟩, false, [], true⟩ := rfl
  have hf2 : fmtFixed 2 (100 : ℚ) = "100.00" := by
    have h1 : round ((100 : ℚ) * 10 ^ 2) = 10000 := by norm_num [round_eq]
    unfold fmtFixed
    rw [h1]
    rfl
  have hf1 : fmtFixed 1 (((0 : ℚ) - 0)/3600) = "0.0" := by
    have h1 : round ((((0 : ℚ) - 0)/3600) * 10 ^ 1) = 0 := by
      norm_num [round_eq]
    unfold fmtFixed
    rw [h1]
    rfl
  refine ⟨by rw [hrec], ?_, by rw [hrec], ?_⟩
  · rw [hrec]
    simp only [Option.map]
    norm_num
  · rw [hrec]
    simp only [Option.map]
    unfold UnifiedPositionManager.closeNotes
    rw [hf2, hf1]
    rfl

/-- C9 (amended): when the position is present locally but absent from the
exchange listing, close_position submits no order, removes the symbol from
the in-memory map, writes the store, and persists a record whose PnL is
computed at the given exit price and whose notes carry only the original
close reason, source, entry price and hold time — no ExternallyClosed
annotation appears anywhere in the record, the skip being visible in the
log alone. -/
theorem external_close_amended
    (positions : List (String × UnifiedPositionManager.PMPos))
    (symbol : String) (pos : UnifiedPositionManager.PMPos)
    (exit_price : ℚ) (reason : String) (now : ℚ)
    (listing : Option (String × List UnifiedPositionManager.WPos))
    (orderResp : Option (String × Option String))
    (hlook : positions.lookup symbol = some pos)
    (habs : UnifiedPositionManager.presentOnExchange listing symbol =
      false) :
    (UnifiedPositionManager.close_position positions symbol exit_price
      reason now listing orderResp).orderSubmitted = false
  ∧ (UnifiedPositionManager.close_position positions symbol exit_price
      reason now listing orderResp).record =
      some ⟨symbol, pos.side, pos.size, exit_price, pos.order_id, "market",
        "filled",
        (if pos.direction = "LONG" then (exit_price - pos.entry_price) *
          pos.size else (pos.entry_price - exit_price) * pos.size), 0,
        UnifiedPositionManager.closeNotes reason pos.source pos.entry_price
          ((now - pos.opened_at)/3600)⟩
  ∧ ((UnifiedPositionManager.close_position positions symbol exit_price
      reason now listing orderResp).positions.lookup symbol) = none
  ∧ (UnifiedPositionManager.close_position positions symbol exit_price
      reason now listing orderResp).dbClosed = true := by
  unfold UnifiedPositionManager.close_position
  rw [hlook]
  dsimp only
  rw [habs]
  exact ⟨rfl, rfl, removeKey_lookup_none positions symbol, rfl⟩

/-- C9 witness: the amended theorem applies to a concrete Short position
missing from the exchange listing. -/
theorem external_close_amended_wit :
    (List.lookup "cmt_ethusdt"
      [("cmt_ethusdt",
        (⟨"cmt_ethusdt", "sell", "SHORT", 2, 50, 60, 53, 44, none, 5, 0,
          none, "INSTITUTIONAL", 50, 50, 1⟩ :
          UnifiedPositionManager.PMPos))] =
      some ⟨"cmt_ethusdt", "sell", "SHORT", 2, 50, 60, 53, 44, none, 5, 0,
        none, "INSTITUTIONAL", 50, 50, 1⟩)
  ∧ (UnifiedPositionManager.presentOnExchange (some ("40012", []))
      "cmt_ethusdt" = false)
  ∧ (UnifiedPositionManager.close_position
      [("cmt_ethusdt",
        ⟨"cmt_ethusdt", "sell", "SHORT", 2, 50, 60, 53, 44, none, 5, 0,
          none, "INSTITUTIONAL", 50, 50, 1⟩)]
      "cmt_ethusdt" 60 "Time stop" 7200 (some ("40012", []))
      none).orderSubmitted = false
  ∧ ((UnifiedPositionManager.close_position
      [("cmt_ethusdt",
        ⟨"cmt_ethusdt", "sell", "SHORT", 2, 50, 60, 53, 44, none, 5, 0,
          none, "INSTITUTIONAL", 50, 50, 1⟩)]
      "cmt_ethusdt" 60 "Time stop" 7200 (some ("40012", []))
      none).positions.lookup "cmt_ethusdt") = none :=
  ⟨rfl, rfl,
   (external_close_amended
     [("cmt_ethusdt",
       ⟨"cmt_ethusdt", "sell", "SHORT", 2, 50, 60, 53, 44, none, 5, 0,
         none, "INSTITUTIONAL", 50, 50, 1⟩)]
     "cmt_ethusdt"
     ⟨"cmt_ethusdt", "sell", "SHORT", 2, 50, 60, 53, 44, none, 5, 0,
       none, "INSTITUTIONAL", 50, 50, 1⟩
     60 "Time stop" 7200 (some ("40012", [])) none rfl rfl).1,
   (external_close_amended
     [("cmt_ethusdt",
       ⟨"cmt_ethusdt", "sell", "SHORT", 2, 50, 60, 53, 44, none, 5, 0,
         none, "INSTITUTIONAL", 50, 50, 1⟩)]
     "cmt_ethusdt"
     ⟨"cmt_ethusdt", "sell", "SHORT", 2, 50, 60, 53, 44, none, 5, 0,
       none, "INSTITUTIONAL", 50, 50, 1⟩
     60 "Time stop" 7200 (some ("40012", [])) none rfl rfl).2.2.1⟩

/-- The advisor-call phase bumps the counter by at most one, and past the
daily limit it returns the fallback without touching state or advisor. -/
theorem callAdvisorPhase_shape (st : LlmBrain.BrainState) (now : ℚ)
    (md : MarketData) (symbol : String) (uc hc : Bool)
    (reply : LlmBrain.AdvisorReply) :
    ((LlmBrain.callAdvisorPhase st now md symbol uc hc
        reply).state.api_call_count = st.api_call_count ∨
     (LlmBrain.callAdvisorPhase st now md symbol uc hc
        reply).state.api_call_count = st.api_call_count + 1)
  ∧ (st.api_call_count ≥ LlmBrain.MAX_DAILY_CALLS →
      LlmBrain.callAdvisorPhase st now md symbol uc hc reply =
        ⟨LlmBrain.get_fallback_decision md, st, false⟩) := by
  constructor
  · unfold LlmBrain.callAdvisorPhase
    by_cases h1 : st.api_call_count ≥ LlmBrain.MAX_DAILY_CALLS
    · rw [if_pos h1]
      left
      rfl
    · rw [if_neg h1]
      by_cases h2 : hc = true
      · rw [if_neg (not_not_intro h2)]
        rcases reply with ⟨d, c, r⟩ | ⟨q, m⟩
        · dsimp only
          right
          split_ifs <;> rfl
        · dsimp only
          right
          split_ifs <;> rfl
      · rw [if_pos h2]
        left
        rfl
  · intro hg
    unfold LlmBrain.callAdvisorPhase
    rw [if_pos hg]

/-- C10 (amended): the advisor-call counter is never reset or decremented,
so once it reaches MAX_DAILY_CALLS the advisor is never contacted again for
the lifetime of the process; every later invocation returns the fresh
cached result when one exists (or the cooldown fallback) and otherwise the
heuristic fallback — not invariably the fallback, as a fresh cache entry
takes precedence over the limit gate. -/
theorem call_counter_monotone :
    (∀ (st : LlmBrain.BrainState) (now : ℚ) (md : MarketData)
       (symbol : String) (uc hc : Bool) (reply : LlmBrain.AdvisorReply),
       st.api_call_count ≤ (LlmBrain.get_trading_decision st now md symbol
         uc hc reply).state.api_call_count)
  ∧ (∀ (st : LlmBrain.BrainState) (now : ℚ) (md : MarketData)
       (symbol : String) (uc hc : Bool) (reply : LlmBrain.AdvisorReply),
       st.api_call_count ≥ LlmBrain.MAX_DAILY_CALLS →
       (LlmBrain.get_trading_decision st now md symbol uc hc
         reply).calledAdvisor = false
     ∧ (LlmBrain.get_trading_decision st now md symbol uc hc
         reply).state.api_call_count = st.api_call_count)
  ∧ (∀ (st : LlmBrain.BrainState) (now : ℚ) (md : MarketData)
       (symbol : String) (uc hc : Bool) (reply : LlmBrain.AdvisorReply),
       st.api_call_count ≥ LlmBrain.MAX_DAILY_CALLS →
       LlmBrain.cacheFresh st now symbol uc = false →
       (LlmBrain.get_trading_decision st now md symbol uc hc
         reply).result = LlmBrain.get_fallback_decision md) := by
  refine ⟨?_, ?_, ?_⟩
  · intro st now md symbol uc hc reply
    unfold LlmBrain.get_trading_decision
    split_ifs with hq hu
    · exact le_rfl
    · cases hL : st.cache.lookup symbol with
      | none =>
        show st.api_call_count ≤ (LlmBrain.callAdvisorPhase st now md
          symbol uc hc reply).state.api_call_count
        rcases (callAdvisorPhase_shape st now md symbol uc hc reply).1
          with h | h <;> omega
      | some e =>
        show st.api_call_count ≤ (if now - e.timestamp <
          LlmBrain.CACHE_DURATION then
            (⟨e.result, st, false⟩ : LlmBrain.StepOut)
          else LlmBrain.callAdvisorPhase st now md symbol uc hc
            reply).state.api_call_count
        split_ifs with ht
        · exact le_rfl
        · rcases (callAdvisorPhase_shape st now md symbol uc hc reply).1
            with h | h <;> omega
    · show st.api_call_count ≤ (LlmBrain.callAdvisorPhase st now md symbol
        uc hc reply).state.api_call_count
      rcases (callAdvisorPhase_shape st now md symbol uc hc reply).1
        with h | h <;> omega
  · intro st now md symbol uc hc reply hge
    unfold LlmBrain.get_trading_decision
    split_ifs with hq hu
    · exact ⟨rfl, rfl⟩
    · cases hL : st.cache.lookup symbol with
      | none =>
        show (LlmBrain.callAdvisorPhase st now md symbol uc hc
            reply).calledAdvisor = false ∧
          (LlmBrain.callAdvisorPhase st now md symbol uc hc
            reply).state.api_call_count = st.api_call_count
        rw [(callAdvisorPhase_shape st now md symbol uc hc reply).2 hge]
        exact ⟨rfl, rfl⟩
      | some e =>
        show (if now - e.timestamp < LlmBrain.CACHE_DURATION then
            (⟨e.result, st, false⟩ : LlmBrain.StepOut)
          else LlmBrain.callAdvisorPhase st now md symbol uc hc
            reply).calledAdvisor = false ∧
          (if now - e.timestamp < LlmBrain.CACHE_DURATION then
            (⟨e.result, st, false⟩ : LlmBrain.StepOut)
          else LlmBrain.callAdvisorPhase st now md symbol uc hc
            reply).state.api_call_count = st.api_call_count
        split_ifs with ht
        · exact ⟨rfl, rfl⟩
        · rw [(callAdvisorPhase_shape st now md symbol uc hc reply).2 hge]
          exact ⟨rfl, rfl⟩
    · show (LlmBrain.callAdvisorPhase st now md symbol uc hc
          reply).calledAdvisor = false ∧
        (LlmBrain.callAdvisorPhase st now md symbol uc hc
          reply).state.api_call_count = st.api_call_count
      rw [(callAdvisorPhase_shape st now md symbol uc hc reply).2 hge]
      exact ⟨rfl, rfl⟩
  · intro st now md symbol uc hc reply hge hfresh
    unfold LlmBrain.cacheFresh at hfresh
    unfold LlmBrain.get_trading_decision
    split_ifs with hq hu
    · rfl
    · rw [if_pos hu] at hfresh
      cases hL : st.cache.lookup symbol with
      | none =>
        show (LlmBrain.callAdvisorPhase st now md symbol uc hc
          reply).result = LlmBrain.get_fallback_decision md
        rw [(callAdvisorPhase_shape st now md symbol uc hc reply).2 hge]
      | some e =>
        rw [hL] at hfresh
        have hfresh2 : decide (now - e.timestamp <
            LlmBrain.CACHE_DURATION) = false := hfresh
        show (if now - e.timestamp < LlmBrain.CACHE_DURATION then
            (⟨e.result, st, false⟩ : LlmBrain.StepOut)
          else LlmBrain.callAdvisorPhase st now md symbol uc hc
            reply).result = LlmBrain.get_fallback_decision md
        rw [if_neg (of_decide_eq_false hfresh2)]
        rw [(callAdvisorPhase_shape st now md symbol uc hc reply).2 hge]
    · show (LlmBrain.callAdvisorPhase st now md symbol uc hc
        reply).result = LlmBrain.get_fallback_decision md
      rw [(callAdvisorPhase_shape st now md symbol uc hc reply).2 hge]

/-- C10 (counterexample): with the counter at the limit (15) and a fresh
60-second cache entry, get_trading_decision returns the cached advisor
result — status SUCCESS, not the heuristic fallback — while never
contacting the advisor, so post-limit invocations are not invariably the
fallback decision. -/
theorem post_limit_cached_result :
    (⟨none, 15, none,
      [("cmt_btcusdt", ⟨⟨"BUY", 82, "r", "SUCCESS", "GEMINI", none⟩, 0⟩)]⟩ :
      LlmBrain.BrainState).api_call_count ≥ LlmBrain.MAX_DAILY_CALLS
  ∧ (LlmBrain.get_trading_decision
      ⟨none, 15, none,
        [("cmt_btcusdt", ⟨⟨"BUY", 82, "r", "SUCCESS", "GEMINI", none⟩, 0⟩)]⟩
      30 ⟨100, 50, 100, 0, "NEUTRAL", false⟩ "cmt_btcusdt" true true
      (.failed false "boom")).result =
      ⟨"BUY", 82, "r", "SUCCESS", "GEMINI", none⟩
  ∧ (LlmBrain.get_trading_decision
      ⟨none, 15, none,
        [("cmt_btcusdt", ⟨⟨"BUY", 82, "r", "SUCCESS", "GEMINI", none⟩, 0⟩)]⟩
      30 ⟨100, 50, 100, 0, "NEUTRAL", false⟩ "cmt_btcusdt" true true
      (.failed false "boom")).result ≠
      LlmBrain.get_fallback_decision ⟨100, 50, 100, 0, "NEUTRAL", false⟩
  ∧ (LlmBrain.get_trading_decision
      ⟨none, 15, none,
        [("cmt_btcusdt", ⟨⟨"BUY", 82, "r", "SUCCESS", "GEMINI", none⟩, 0⟩)]⟩
      30 ⟨100, 50, 100, 0, "NEUTRAL", false⟩ "cmt_btcusdt" true true
      (.failed false "boom")).calledAdvisor = false := by
  have hstep : LlmBrain.get_trading_decision
      ⟨none, 15, none,
        [("cmt_btcusdt", ⟨⟨"BUY", 82, "r", "SUCCESS", "GEMINI", none⟩, 0⟩)]⟩
      30 ⟨100, 50, 100, 0, "NEUTRAL", false⟩ "cmt_btcusdt" true true
      (.failed false "boom") =
      ⟨⟨"BUY", 82, "r", "SUCCESS", "GEMINI", none⟩,
        ⟨none, 15, none,
          [("cmt_btcusdt",
            ⟨⟨"BUY", 82, "r", "SUCCESS", "GEMINI", none⟩, 0⟩)]⟩,
        false⟩ := by
    show (if (30 : ℚ) - 0 < LlmBrain.CACHE_DURATION then
        (⟨⟨"BUY", 82, "r", "SUCCESS", "GEMINI", none⟩,
          ⟨none, 15, none,
            [("cmt_btcusdt",
              ⟨⟨"BUY", 82, "r", "SUCCESS", "GEMINI", none⟩, 0⟩)]⟩,
          false⟩ : LlmBrain.StepOut)
      else LlmBrain.callAdvisorPhase
        ⟨none, 15, none,
          [("cmt_btcusdt",
            ⟨⟨"BUY", 82, "r", "SUCCESS", "GEMINI", none⟩, 0⟩)]⟩
        30 ⟨100, 50, 100, 0, "NEUTRAL", false⟩ "cmt_btcusdt" true true
        (.failed false "boom")) =
      ⟨⟨"BUY", 82, "r", "SUCCESS", "GEMINI", none⟩,
        ⟨none, 15, none,
          [("cmt_btcusdt",
            ⟨⟨"BUY", 82, "r", "SUCCESS", "GEMINI", none⟩, 0⟩)]⟩,
        false⟩
    rw [if_pos (by norm_num [LlmBrain.CACHE_DURATION])]
  refine ⟨by decide, by rw [hstep], ?_, by rw [hstep]⟩
  rw [hstep]
  intro h
  have hstat := congrArg LlmBrain.Decision.status h
  simp [LlmBrain.get_fallback_decision] at hstat

/-- C10 witness: the amended theorem applies at a concrete state at the
limit with no cache entry: the advisor is skipped and the fallback
returned. -/
theorem call_counter_monotone_wit :
    ((⟨none, 15, none, []⟩ : LlmBrain.BrainState).api_call_count ≥
      LlmBrain.MAX_DAILY_CALLS
  ∧ LlmBrain.cacheFresh ⟨none, 15, none, []⟩ 0 "cmt_btcusdt" true = false)
  ∧ ((LlmBrain.get_trading_decision ⟨none, 15, none, []⟩ 0
      ⟨100, 50, 100, 0, "NEUTRAL", false⟩ "cmt_btcusdt" true true
      (.failed false "x")).calledAdvisor = false
    ∧ (LlmBrain.get_trading_decision ⟨none, 15, none, []⟩ 0
      ⟨100, 50, 100, 0, "NEUTRAL", false⟩ "cmt_btcusdt" true true
      (.failed false "x")).state.api_call_count = 15)
  ∧ (LlmBrain.get_trading_decision ⟨none, 15, none, []⟩ 0
      ⟨100, 50, 100, 0, "NEUTRAL", false⟩ "cmt_btcusdt" true true
      (.failed false "x")).result =
      LlmBrain.get_fallback_decision ⟨100, 50, 100, 0, "NEUTRAL", false⟩ :=
  ⟨⟨by decide, by decide⟩,
   call_counter_monotone.2.1 ⟨none, 15, none, []⟩ 0
     ⟨100, 50, 100, 0, "NEUTRAL", false⟩ "cmt_btcusdt" true true
     (.failed false "x") (by decide),
   call_counter_monotone.2.2 ⟨none, 15, none, []⟩ 0
     ⟨100, 50, 100, 0, "NEUTRAL", false⟩ "cmt_btcusdt" true true
     (.failed false "x") (by decide) (by decide)⟩
